import Mathlib

/-!
# iothub-medical-demo: device simulator and management console

Shallow embedding of `src/device-simulator/device_simulator.c` and
`src/management-app/device_manager.c`.

Conventions of the embedding.

* A C `int` / `long` is an `Int`; the result of `rand()` is a `Nat` (it is never
  negative).
* A C `double` is a rational number: every finite double is one, and the
  constants the code compares with (37.5, 38.5) are exact in binary.
* The vitals drawn as `base + (rand() % m) / 10.0` are taken as exact tenths; the
  double nearest to such a number is printed by `%.1f` as that number of tenths.
* A C string is the list of its bytes (`List Nat`, the terminating NUL left out).
* `time(NULL)` is a `Nat`, the seconds since the epoch.
* The libc functions (`gmtime`, `strftime`, `snprintf`, `strrchr`) are modelled
  from their documented behaviour, for the conversions the programs use.
* The callbacks the SDK runs on its own thread are events of an explicit schedule
  that says at which point of the main thread they are delivered.
-/

namespace IotHubDemo

/-! ## Vitals generation and classification (`generateMedicalTelemetry`) -/

/-- The six vitals drawn by `generateMedicalTelemetry` (lines 146-151). -/
structure Vitals where
  heartRate : Int
  bloodPressureSystolic : Int
  bloodPressureDiastolic : Int
  bodyTemperature : ℚ
  spo2 : Int
  respiratoryRate : ℚ

/-- Lines 146-151: the vitals computed from six successive results of `rand()`,
in the order of the calls. -/
def drawVitals (r1 r2 r3 r4 r5 r6 : Nat) : Vitals where
  heartRate := 60 + ((r1 % 40 : Nat) : Int)
  bloodPressureSystolic := 110 + ((r2 % 30 : Nat) : Int)
  bloodPressureDiastolic := 70 + ((r3 % 20 : Nat) : Int)
  bodyTemperature := 36 + ((r4 % 20 : Nat) : ℚ) / 10
  spo2 := 95 + ((r5 % 6 : Nat) : Int)
  respiratoryRate := 12 + ((r6 % 80 : Nat) : ℚ) / 10

/-- Lines 154-162: `status` starts as "normal" and is overwritten by two
successive `if` statements. -/
def patientStatus (heartRate : Int) (bodyTemperature : ℚ) (spo2 : Int) : String :=
  let status := "normal"
  let status :=
    if heartRate > 100 ∨ bodyTemperature > 37.5 ∨ spo2 < 95 then "warning" else status
  let status :=
    if heartRate > 120 ∨ bodyTemperature > 38.5 ∨ spo2 < 90 then "critical" else status
  status

/-! ## C strings and the libc functions the programs call -/

/-- The UTF-8 bytes of one character of a source literal. -/
def utf8Bytes (c : Char) : List Nat :=
  let n := c.toNat
  if n < 0x80 then [n]
  else if n < 0x800 then [0xC0 + n / 64, 0x80 + n % 64]
  else if n < 0x10000 then [0xE0 + n / 4096, 0x80 + n / 64 % 64, 0x80 + n % 64]
  else [0xF0 + n / 262144, 0x80 + n / 4096 % 64, 0x80 + n / 64 % 64, 0x80 + n % 64]

/-- The bytes of a string literal of the source. -/
def cstr (s : String) : List Nat := s.toList.flatMap utf8Bytes

/-- Decimal digits of `n`, most significant first, with `fuel` bounding the
number of digits. -/
def decimalAux : Nat → Nat → List Nat
  | 0, _ => []
  | fuel + 1, n => if n < 10 then [48 + n] else decimalAux fuel (n / 10) ++ [48 + n % 10]

/-- What printf prints for a non-negative integer under `%d`: its decimal digits. -/
def decimal (n : Nat) : List Nat := decimalAux (n + 1) n

/-- Conversion `%d` / `%ld` of printf. -/
def fmtInt (i : Int) : List Nat :=
  if i < 0 then 45 :: decimal i.natAbs else decimal i.natAbs

/-- Rounding to the nearest integer, ties to even (the rounding of printf). -/
def roundHalfEven (q : ℚ) : Int :=
  let f := ⌊q⌋
  let r := q - f
  if r < 1 / 2 then f else if 1 / 2 < r then f + 1 else if f % 2 = 0 then f else f + 1

/-- Conversion `%.1f` of printf. -/
def fmtFixed1 (q : ℚ) : List Nat :=
  let t := (roundHalfEven (|q| * 10)).natAbs
  (if q < 0 then [45] else []) ++ decimal (t / 10) ++ [46, 48 + t % 10]

/-- An argument of a printf-style call. -/
inductive PrintfArg where
  | str (s : List Nat)
  | int (i : Int)
  | dbl (q : ℚ)

/-- The output of printf for the conversions the two programs use:
`%s`, `%d`, `%ld` and `%.1f`; every other byte of the format is copied. -/
def vformat : List Nat → List PrintfArg → List Nat
  | [], _ => []
  | 37 :: 115 :: fmt, PrintfArg.str s :: args => s ++ vformat fmt args
  | 37 :: 100 :: fmt, PrintfArg.int i :: args => fmtInt i ++ vformat fmt args
  | 37 :: 108 :: 100 :: fmt, PrintfArg.int i :: args => fmtInt i ++ vformat fmt args
  | 37 :: 46 :: 49 :: 102 :: fmt, PrintfArg.dbl q :: args => fmtFixed1 q ++ vformat fmt args
  | c :: fmt, args => c :: vformat fmt args

/-- The call `snprintf(buf, size, fmt, ...)`: at most `size - 1` bytes of the output are
stored (followed by the NUL). -/
def snprintf (size : Nat) (fmt : String) (args : List PrintfArg) : List Nat :=
  (vformat (cstr fmt) args).take (size - 1)

/-- The fields of `struct tm` that the programs print. -/
structure Tm where
  tm_sec : Nat
  tm_min : Nat
  tm_hour : Nat
  tm_mday : Nat
  tm_mon : Nat
  tm_year : Nat
  deriving DecidableEq

/-- The function `gmtime`: the UTC calendar time of `now` seconds since 1970-01-01T00:00:00Z
(proleptic Gregorian calendar, days counted from 0000-03-01 in 400-year eras).
It models the successful call: gmtime fails only when the year does not fit
`int tm_year`. -/
def gmtime (now : Nat) : Tm :=
  let days := now / 86400
  let rem := now % 86400
  let z := days + 719468
  let era := z / 146097
  let doe := z % 146097
  let yoe := (doe - doe / 1460 + doe / 36524 - doe / 146096) / 365
  let doy := doe - (365 * yoe + yoe / 4 - yoe / 100)
  let mp := (5 * doy + 2) / 153
  let d := doy - (153 * mp + 2) / 5 + 1
  let m := if mp < 10 then mp + 3 else mp - 9
  let y := yoe + era * 400 + (if m ≤ 2 then 1 else 0)
  { tm_sec := rem % 60, tm_min := rem / 60 % 60, tm_hour := rem / 3600,
    tm_mday := d, tm_mon := m - 1, tm_year := y - 1900 }

/-- A number printed by strftime in a field of two digits, zero padded. -/
def pad2 (n : Nat) : List Nat := if n < 10 then 48 :: decimal n else decimal n

/-- The output of strftime for the conversions the two programs use:
`%Y`, `%m`, `%d`, `%H`, `%M` and `%S`; every other byte of the format is copied. -/
def strftimeOut : List Nat → Tm → List Nat
  | [], _ => []
  | 37 :: 89 :: fmt, tm => decimal (tm.tm_year + 1900) ++ strftimeOut fmt tm
  | 37 :: 109 :: fmt, tm => pad2 (tm.tm_mon + 1) ++ strftimeOut fmt tm
  | 37 :: 100 :: fmt, tm => pad2 tm.tm_mday ++ strftimeOut fmt tm
  | 37 :: 72 :: fmt, tm => pad2 tm.tm_hour ++ strftimeOut fmt tm
  | 37 :: 77 :: fmt, tm => pad2 tm.tm_min ++ strftimeOut fmt tm
  | 37 :: 83 :: fmt, tm => pad2 tm.tm_sec ++ strftimeOut fmt tm
  | c :: fmt, tm => c :: strftimeOut fmt tm

/-- The call `strftime(buf, maxsize, fmt, tm)`: the output when it fits with its NUL in
`maxsize` bytes. When it does not fit strftime returns 0 and the contents of the
array are indeterminate: `none`. -/
def strftime (maxsize : Nat) (fmt : String) (tm : Tm) : Option (List Nat) :=
  let out := strftimeOut (cstr fmt) tm
  if out.length < maxsize then some out else none

/-- Index of the last occurrence of `c` in `s`, the value of `strrchr(s, c) - s`. -/
def strrchr (s : List Nat) (c : Nat) : Option Nat :=
  match s with
  | [] => none
  | x :: rest =>
    match strrchr rest c with
    | some i => some (i + 1)
    | none => if x = c then some 0 else none

/-! ## Upload mode (`runUploadMode`, `fileUploadCallback`, `signalHandler`) -/

/-- Lines 283-295 of `runUploadMode`: the base name of the path (`strrchr`), the
time stamp (`strftime` into `char timestamp[16]`) and the destination name
(`snprintf` into `char destFileName[256]`). `none` when the time stamp does not
fit its array, whose contents are then indeterminate. -/
def destFileName (deviceId filePath : List Nat) (now : Nat) : Option (List Nat) :=
  let fileName :=
    match strrchr filePath 47 with
    | none => filePath
    | some i => filePath.drop (i + 1)
  let timeinfo := gmtime now
  (strftime 16 "%Y%m%d%H%M%S" timeinfo).map fun timestamp =>
    snprintf 256 "%s_%s_%s"
      [PrintfArg.str deviceId, PrintfArg.str timestamp, PrintfArg.str fileName]

/-- The values of `IOTHUB_CLIENT_FILE_UPLOAD_RESULT`. -/
inductive FileUploadResult where
  | FILE_UPLOAD_OK
  | FILE_UPLOAD_ERROR
  deriving DecidableEq

/-- The two flags of the simulator that are written asynchronously. -/
structure UploadState where
  g_continueRunning : Bool
  g_uploadCompleted : Bool
  deriving DecidableEq

/-- Lines 117-134: whatever the result, the callback sets `g_uploadCompleted`
(the result is only printed). -/
def fileUploadCallback (_result : FileUploadResult) (st : UploadState) : UploadState :=
  { st with g_uploadCompleted := true }

/-- Lines 35-42, for SIGINT: clears `g_continueRunning`. -/
def signalHandler (st : UploadState) : UploadState :=
  { st with g_continueRunning := false }

/-- A point of `runUploadMode` at which an asynchronous event is delivered. -/
inductive Moment where
  /-- The event does not happen while `runUploadMode` runs. -/
  | never
  /-- After `IoTHubDeviceClient_UploadToBlobAsync` has returned (line 308) and
  before the assignment of line 319; for SIGINT, any point before the loop. -/
  | afterSubmit
  /-- During the `k`-th call of `ThreadAPI_Sleep(1000)` (line 324), `k = 1` being
  the first. -/
  | duringSleep (k : Nat)
  deriving DecidableEq

/-- When the upload callback runs, with which result, and when SIGINT arrives. -/
structure Schedule where
  callbackAt : Moment
  callbackResult : FileUploadResult
  sigintAt : Moment
  deriving DecidableEq

/-- The events of the schedule that are delivered at moment `m`. -/
def deliver (sch : Schedule) (m : Moment) (st : UploadState) : UploadState :=
  let st := if sch.callbackAt = m then fileUploadCallback sch.callbackResult st else st
  if sch.sigintAt = m then signalHandler st else st

/-- Lines 321-331: `while (timeout > 0 && g_continueRunning && !g_uploadCompleted)`
with body `ThreadAPI_Sleep(1000); timeout--;`. The arguments are `timeout` and the
number of sleeps made so far; the result is the final `timeout`, the number of
sleeps and the flags. -/
def waitLoop (sch : Schedule) : Nat → Nat → UploadState → Nat × Nat × UploadState
  | 0, sleeps, st => (0, sleeps, st)
  | timeout + 1, sleeps, st =>
    if st.g_continueRunning && !st.g_uploadCompleted then
      waitLoop sch timeout (sleeps + 1) (deliver sch (Moment.duringSleep (sleeps + 1)) st)
    else (timeout + 1, sleeps, st)

/-- What the file system and the SDK answer to `runUploadMode`. -/
structure UploadEnv where
  /-- whether `stat(filePath, &st)` returned 0 -/
  statOk : Bool
  /-- whether `fopen` returned a file -/
  fopenOk : Bool
  /-- whether `malloc` returned memory -/
  mallocOk : Bool
  /-- whether `fread` read `st.st_size` bytes -/
  readComplete : Bool
  /-- whether `IoTHubDeviceClient_UploadToBlobAsync` returned `IOTHUB_CLIENT_OK` -/
  submitOk : Bool
  deriving DecidableEq

/-- The `return` statement by which `runUploadMode` ends. -/
inductive UploadExit where
  | fileNotFound
  | openFailed
  | allocFailed
  | readIncomplete
  | initiateFailed
  | uploadTimeout
  | completed
  deriving DecidableEq

/-- The value returned by each `return` statement of `runUploadMode`. -/
def UploadExit.code : UploadExit → Int
  | UploadExit.completed => 0
  | _ => 1

/-- One run of `runUploadMode`. -/
structure UploadRun where
  exit : UploadExit
  /-- number of calls of `ThreadAPI_Sleep(1000)` -/
  sleeps : Nat
  /-- whether `IoTHubDeviceClient_UploadToBlobAsync` was called -/
  submitted : Bool
  deriving DecidableEq

/-- Lines 238-343. `st` holds the flags on entry. -/
def runUploadMode (env : UploadEnv) (sch : Schedule) (st : UploadState) : UploadRun :=
  if !env.statOk then ⟨UploadExit.fileNotFound, 0, false⟩
  else if !env.fopenOk then ⟨UploadExit.openFailed, 0, false⟩
  else if !env.mallocOk then ⟨UploadExit.allocFailed, 0, false⟩
  else if !env.readComplete then ⟨UploadExit.readIncomplete, 0, false⟩
  else if !env.submitOk then ⟨UploadExit.initiateFailed, 0, true⟩
  else
    let st := deliver sch Moment.afterSubmit st
    let timeout := 60
    let st := { st with g_uploadCompleted := false }
    let (timeout, sleeps, st) := waitLoop sch timeout 0 st
    if !st.g_uploadCompleted && timeout == 0 then ⟨UploadExit.uploadTimeout, sleeps, true⟩
    else ⟨UploadExit.completed, sleeps, true⟩

/-- The file was loaded and the upload was accepted by the SDK. -/
def UploadEnv.started (env : UploadEnv) : Bool :=
  env.statOk && env.fopenOk && env.mallocOk && env.readComplete && env.submitOk

/-- The flags at the first test of the loop: the events delivered after the
submission, then the assignment of line 319. -/
def afterReset (sch : Schedule) (st : UploadState) : UploadState :=
  { deliver sch Moment.afterSubmit st with g_uploadCompleted := false }

/-- The flags when the simulator starts (lines 30-31). -/
def initialFlags : UploadState := ⟨true, false⟩

/-- The format of line 165-176. -/
def telemetryFormat : String :=
  "\x7b" ++
  "\"deviceId\":\"%s\"," ++
  "\"timestamp\":\"%s\"," ++
  "\"heartRate\":%d," ++
  "\"bloodPressureSystolic\":%d," ++
  "\"bloodPressureDiastolic\":%d," ++
  "\"bodyTemperature\":%.1f," ++
  "\"spo2\":%d," ++
  "\"respiratoryRate\":%.1f," ++
  "\"patientStatus\":\"%s\"" ++
  "\x7d"

/-- The arguments of the `snprintf` of lines 177-179. -/
def telemetryArgs (deviceId timestamp : List Nat) (v : Vitals) (status : String) :
    List PrintfArg :=
  [PrintfArg.str deviceId, PrintfArg.str timestamp, PrintfArg.int v.heartRate,
    PrintfArg.int v.bloodPressureSystolic, PrintfArg.int v.bloodPressureDiastolic,
    PrintfArg.dbl v.bodyTemperature, PrintfArg.int v.spo2,
    PrintfArg.dbl v.respiratoryRate, PrintfArg.str (cstr status)]

/-- Lines 137-181: the contents of `jsonBuffer` after the call, from the time
`now` and the six results of `rand()`. `none` when the time stamp does not fit
`char timestamp[32]`, whose contents are then indeterminate. -/
def generateMedicalTelemetry (bufferSize : Nat) (deviceId : List Nat) (now : Nat)
    (r1 r2 r3 r4 r5 r6 : Nat) : Option (List Nat) :=
  let timeinfo := gmtime now
  let v := drawVitals r1 r2 r3 r4 r5 r6
  let status := patientStatus v.heartRate v.bodyTemperature v.spo2
  (strftime 32 "%Y-%m-%dT%H:%M:%SZ" timeinfo).map fun timestamp =>
    snprintf bufferSize telemetryFormat (telemetryArgs deviceId timestamp v status)

/-- The value that the `snprintf` of line 165 returns (the code ignores it): the
length of the complete output, whatever the size of the buffer. -/
def telemetryLength (deviceId : List Nat) (now : Nat) (r1 r2 r3 r4 r5 r6 : Nat) : Nat :=
  let timeinfo := gmtime now
  let v := drawVitals r1 r2 r3 r4 r5 r6
  let status := patientStatus v.heartRate v.bodyTemperature v.spo2
  ((strftime 32 "%Y-%m-%dT%H:%M:%SZ" timeinfo).map fun timestamp =>
    (vformat (cstr telemetryFormat) (telemetryArgs deviceId timestamp v status)).length).getD 0

/-! ## Management console (`device_manager.c`) -/

/-- Line 47: `snprintf(messageId, sizeof(messageId), "msg-%ld", now)` with
`char messageId[64]`. -/
def messageIdOf (now : Nat) : List Nat :=
  snprintf 64 "msg-%ld" [PrintfArg.int now]

/-- The format of lines 51-62. -/
def commandFormat : String :=
  "\x7b" ++
  "\"messageId\":\"%s\"," ++
  "\"timestamp\":\"%s\"," ++
  "\"command\":\"request_diagnostic_data\"," ++
  "\"description\":\"診断データの要求\"," ++
  "\"parameters\":\x7b" ++
      "\"include_logs\":true," ++
      "\"time_range_hours\":24" ++
  "\x7d," ++
  "\"sender\":\"management-app-c\"," ++
  "\"priority\":\"normal\"" ++
  "\x7d"

/-- Lines 37-64: the contents of `jsonBuffer` after the call made at time `now`
(`deviceId` is not used). `none` when the time stamp does not fit
`char timestamp[32]`, whose contents are then indeterminate. -/
def createMedicalCommand (bufferSize : Nat) (_deviceId : List Nat) (now : Nat) :
    Option (List Nat) :=
  let timeinfo := gmtime now
  let messageId := messageIdOf now
  (strftime 32 "%Y-%m-%dT%H:%M:%SZ" timeinfo).map fun timestamp =>
    snprintf bufferSize commandFormat
      [PrintfArg.str messageId, PrintfArg.str timestamp]

/-- What happens around one call of `sendMessageToDevice`. A run of
`messageSendCallback` adds one to `g_messageCount` whatever result it is given
(lines 24-33: the result is only printed), so the schedule counts the runs. -/
structure SendEnv where
  /-- the value of `time(NULL)` in `createMedicalCommand` -/
  now : Nat
  /-- whether `IoTHubMessage_CreateFromString` returned a handle -/
  createOk : Bool
  /-- whether `IoTHubMessaging_SendAsync` returned `IOTHUB_MESSAGING_OK` -/
  submitOk : Bool
  /-- runs of `messageSendCallback` between the call of `IoTHubMessaging_SendAsync`
  and the first test of the loop of line 104 -/
  cbBeforeWait : Nat
  /-- runs of `messageSendCallback` during the `k`-th `ThreadAPI_Sleep(100)` -/
  cbDuringSleep : Nat → Nat
  /-- runs of `messageSendCallback` after the call has returned and before the next
  call of `sendMessageToDevice` (the `ThreadAPI_Sleep(500)` of `main`) -/
  cbAfterReturn : Nat

/-- One call of `IoTHubMessaging_SendAsync`. -/
structure Submission where
  /-- the `deviceId` argument -/
  target : List Nat
  /-- the message text -/
  message : Option (List Nat)
  /-- the value of `g_messageCount` when the call is made -/
  countAtSubmit : Nat
  deriving DecidableEq

/-- One call of `sendMessageToDevice`. -/
structure SendRun where
  /-- the `deviceId` argument -/
  deviceId : List Nat
  /-- the value returned -/
  ret : Int
  /-- the call of `IoTHubMessaging_SendAsync`, when one is made -/
  submission : Option Submission
  /-- number of calls of `ThreadAPI_Sleep(100)` -/
  sleeps : Nat
  /-- the value of `g_messageCount` on return -/
  g_messageCount : Nat
  deriving DecidableEq

/-- Lines 103-108: `while (timeout > 0 && g_messageCount == 0)` with body
`ThreadAPI_Sleep(100); timeout--;`. Arguments: `timeout`, the sleeps made so far
and `g_messageCount`; each run of `messageSendCallback` adds one to the latter
(line 33). -/
def sendWaitLoop (cb : Nat → Nat) : Nat → Nat → Nat → Nat × Nat × Nat
  | 0, sleeps, g => (0, sleeps, g)
  | timeout + 1, sleeps, g =>
    if g == 0 then sendWaitLoop cb timeout (sleeps + 1) (g + cb (sleeps + 1))
    else (timeout + 1, sleeps, g)

/-- Lines 67-112; `g` is `g_messageCount` on entry. -/
def sendMessageToDevice (env : SendEnv) (deviceId : List Nat) (g : Nat) : SendRun :=
  let messageBuffer := createMedicalCommand 1024 deviceId env.now
  if !env.createOk then ⟨deviceId, 1, none, 0, g⟩
  else
    let submission : Submission := ⟨deviceId, messageBuffer, g⟩
    if !env.submitOk then ⟨deviceId, 1, some submission, 0, g⟩
    else
      let g := g + env.cbBeforeWait
      let timeout := 10
      let (_, sleeps, _) := sendWaitLoop env.cbDuringSleep timeout 0 g
      ⟨deviceId, 0, some submission, sleeps, 0⟩

/-- Lines 203-207 of `main`: the loop of `--send_all` over the targets, each with
what happens around its call; `g` is `g_messageCount` before the first call. -/
def sendAll : List (List Nat × SendEnv) → Nat → List SendRun
  | [], _ => []
  | (deviceId, env) :: rest, g =>
    let run := sendMessageToDevice env deviceId g
    run :: sendAll rest (run.g_messageCount + env.cbAfterReturn)

/-- The built-in targets of `--send_all` (lines 191-197). -/
def devices : List (List Nat) :=
  [cstr "icu-device01", cstr "icu-device02", cstr "general-device01",
    cstr "general-device02", cstr "general-device03"]

/-- The targets of the calls of `IoTHubMessaging_SendAsync`, in the order of the
calls. -/
def submittedTargets (runs : List SendRun) : List (List Nat) :=
  runs.filterMap fun run => run.submission.map fun sub => sub.target

/-! ## The destination name as the specification words it -/

/-- The decimal digit of `n` of weight `10 ^ i`, as an ASCII byte. -/
def digitAt (n i : Nat) : Nat := 48 + n / 10 ^ i % 10

/-- The 14-digit `yyyyMMddHHmmss` rendering of a calendar time: four digits of
the year, then two digits each of month, day, hour, minute and second. -/
def stamp14 (tm : Tm) : List Nat :=
  [digitAt (tm.tm_year + 1900) 3, digitAt (tm.tm_year + 1900) 2,
    digitAt (tm.tm_year + 1900) 1, digitAt (tm.tm_year + 1900) 0,
    digitAt (tm.tm_mon + 1) 1, digitAt (tm.tm_mon + 1) 0,
    digitAt tm.tm_mday 1, digitAt tm.tm_mday 0,
    digitAt tm.tm_hour 1, digitAt tm.tm_hour 0,
    digitAt tm.tm_min 1, digitAt tm.tm_min 0,
    digitAt tm.tm_sec 1, digitAt tm.tm_sec 0]

/-- The part of a path after its last `/`; the whole path when it has no `/`. -/
def baseName (path : List Nat) : List Nat :=
  (path.reverse.takeWhile fun c => c ≠ 47).reverse

/-- The number written by a list of ASCII decimal digits. -/
def digitsValue (ds : List Nat) : Nat :=
  ds.foldl (fun acc d => acc * 10 + (d - 48)) 0

/-! ## JSON texts (RFC 8259)

The decoder the payload claims are stated against. A text is a list of bytes and
must be well-formed UTF-8 (RFC 8259 section 8.1, RFC 3629); a string value is the
list of its bytes, escapes resolved. -/

/-- A JSON value. The number `num m e` is `m * 10 ^ e`. -/
inductive Json where
  | null
  | bool (b : Bool)
  | num (mantissa : Int) (exponent : Int)
  | str (s : List Nat)
  | arr (items : List Json)
  | obj (members : List (List Nat × Json))

/-- The rational number written `num m e`. -/
def numValue (m e : Int) : ℚ := (m : ℚ) * (10 : ℚ) ^ e

/-- Space, tab, line feed, carriage return. -/
def isWhitespace (c : Nat) : Bool := c = 32 || c = 9 || c = 10 || c = 13

/-- The text without its leading whitespace. -/
def skipWs : List Nat → List Nat
  | [] => []
  | c :: rest => if isWhitespace c then skipWs rest else c :: rest

/-- An ASCII decimal digit. -/
def isDigit (c : Nat) : Bool := decide (48 ≤ c) && decide (c ≤ 57)

/-- The longest prefix of digits, and what follows it. -/
def spanDigits : List Nat → List Nat × List Nat
  | [] => ([], [])
  | c :: rest =>
    if isDigit c then (c :: (spanDigits rest).1, (spanDigits rest).2) else ([], c :: rest)

/-- The value of a hexadecimal digit. -/
def hexValue (c : Nat) : Option Nat :=
  if 48 ≤ c ∧ c ≤ 57 then some (c - 48)
  else if 65 ≤ c ∧ c ≤ 70 then some (c - 55)
  else if 97 ≤ c ∧ c ≤ 102 then some (c - 87)
  else none

/-- The 16-bit unit written by four hexadecimal digits. -/
def hex4 (a b c d : Nat) : Option Nat :=
  match hexValue a, hexValue b, hexValue c, hexValue d with
  | some a, some b, some c, some d => some (((a * 16 + b) * 16 + c) * 16 + d)
  | _, _, _, _ => none

/-- The UTF-8 bytes of a code point. -/
def utf8OfCode (n : Nat) : List Nat :=
  if n < 0x80 then [n]
  else if n < 0x800 then [0xC0 + n / 64, 0x80 + n % 64]
  else if n < 0x10000 then [0xE0 + n / 4096, 0x80 + n / 64 % 64, 0x80 + n % 64]
  else [0xF0 + n / 262144, 0x80 + n / 4096 % 64, 0x80 + n / 64 % 64, 0x80 + n % 64]

/-- The byte denoted by a one-letter escape. -/
def simpleEscape (e : Nat) : Option Nat :=
  if e = 34 then some 34 else if e = 92 then some 92 else if e = 47 then some 47
  else if e = 98 then some 8 else if e = 102 then some 12 else if e = 110 then some 10
  else if e = 114 then some 13 else if e = 116 then some 9 else none

/-- The bytes denoted by the escape that follows a backslash, and the text after
the escape. Unknown escapes and unpaired surrogates are rejected. -/
def parseEscape (s : List Nat) : Option (List Nat × List Nat) :=
  match s with
  | [] => none
  | e :: rest =>
    if e = 117 then
      match rest with
      | a :: b :: c :: d :: rest3 =>
        match hex4 a b c d with
        | none => none
        | some u =>
          if 0xD800 ≤ u ∧ u < 0xDC00 then
            match rest3 with
            | 92 :: 117 :: a2 :: b2 :: c2 :: d2 :: rest4 =>
              match hex4 a2 b2 c2 d2 with
              | none => none
              | some lo =>
                if 0xDC00 ≤ lo ∧ lo < 0xE000 then
                  some (utf8OfCode (0x10000 + (u - 0xD800) * 1024 + (lo - 0xDC00)), rest4)
                else none
            | _ => none
          else if 0xDC00 ≤ u ∧ u < 0xE000 then none
          else some (utf8OfCode u, rest3)
      | _ => none
    else (simpleEscape e).map fun b => ([b], rest)

/-- The bytes of a string and the text after its closing quote, from the text
after its opening quote; `fuel` bounds the number of steps. Control bytes are
rejected; that the bytes are well-formed UTF-8 is checked on the whole text by
`decodeJson`. -/
def parseChars : Nat → List Nat → Option (List Nat × List Nat)
  | 0, _ => none
  | _ + 1, [] => none
  | fuel + 1, c :: rest =>
    if c = 34 then some ([], rest)
    else if c = 92 then
      match parseEscape rest with
      | none => none
      | some (bytes, rest2) => (parseChars fuel rest2).map fun p => (bytes ++ p.1, p.2)
    else if c < 32 then none
    else (parseChars fuel rest).map fun p => (c :: p.1, p.2)

/-- The bytes of a string and the text after its closing quote, from the text
after its opening quote. -/
def parseStringBody (s : List Nat) : Option (List Nat × List Nat) :=
  parseChars s.length s

/-- The exponent part of a number, from the text after its integer and fraction
parts `ip` and `fp`; `neg` tells a leading minus. -/
def finishNumber (neg : Bool) (ip fp : List Nat) (s : List Nat) :
    Option (Json × List Nat) :=
  let m : Int := if neg then -(digitsValue (ip ++ fp) : Int) else (digitsValue (ip ++ fp) : Int)
  let scale : Int := -(fp.length : Int)
  match s with
  | [] => some (Json.num m scale, [])
  | e :: s1 =>
    if e = 101 ∨ e = 69 then
      let eneg : Bool := s1.head? = some 45
      let s2 := if s1.head? = some 45 ∨ s1.head? = some 43 then s1.tail else s1
      let ds := (spanDigits s2).1
      if ds = [] then none
      else
        let x : Int := if eneg then -(digitsValue ds : Int) else (digitsValue ds : Int)
        some (Json.num m (x + scale), (spanDigits s2).2)
    else some (Json.num m scale, e :: s1)

/-- A number: optional minus, integer part without superfluous leading zero,
optional fraction, optional exponent. -/
def parseNumber (s : List Nat) : Option (Json × List Nat) :=
  let neg : Bool := s.head? = some 45
  let s1 := if neg then s.tail else s
  let ip := (spanDigits s1).1
  let s2 := (spanDigits s1).2
  if ip = [] then none
  else if ip.head? = some 48 ∧ 1 < ip.length then none
  else
    match s2 with
    | 46 :: s3 =>
      if (spanDigits s3).1 = [] then none
      else finishNumber neg ip (spanDigits s3).1 (spanDigits s3).2
    | _ => finishNumber neg ip [] s2

/-- The elements of a non-empty array, from the text after `[`, with the parser
of one value; `n` bounds the number of elements. -/
def parseElements (pv : List Nat → Option (Json × List Nat)) :
    Nat → List Nat → Option (List Json × List Nat)
  | 0, _ => none
  | n + 1, s =>
    match pv (skipWs s) with
    | none => none
    | some (v, s1) =>
      match skipWs s1 with
      | 44 :: s2 => (parseElements pv n s2).map fun p => (v :: p.1, p.2)
      | 93 :: s2 => some ([v], s2)
      | _ => none

/-- The members of a non-empty object, from the text after `{`, with the parser
of one value; `n` bounds the number of members. -/
def parseMembers (pv : List Nat → Option (Json × List Nat)) :
    Nat → List Nat → Option (List (List Nat × Json) × List Nat)
  | 0, _ => none
  | n + 1, s =>
    match skipWs s with
    | 34 :: s1 =>
      match parseStringBody s1 with
      | none => none
      | some (key, s2) =>
        match skipWs s2 with
        | 58 :: s3 =>
          match pv (skipWs s3) with
          | none => none
          | some (v, s4) =>
            match skipWs s4 with
            | 44 :: s5 => (parseMembers pv n s5).map fun p => ((key, v) :: p.1, p.2)
            | 125 :: s5 => some ([(key, v)], s5)
            | _ => none
        | _ => none
    | _ => none

/-- The text after the prefix `p`, when the text starts with `p`. -/
def stripPrefix : List Nat → List Nat → Option (List Nat)
  | [], s => some s
  | _ :: _, [] => none
  | p :: ps, c :: s => if p = c then stripPrefix ps s else none

/-- One value at the head of the text, and the text after it; `fuel` bounds the
depth of nesting. -/
def parseValue : Nat → List Nat → Option (Json × List Nat)
  | 0, _ => none
  | _ + 1, [] => none
  | fuel + 1, c :: rest =>
    if c = 34 then (parseStringBody rest).map fun p => (Json.str p.1, p.2)
    else if c = 123 then
      if (skipWs rest).head? = some 125 then some (Json.obj [], (skipWs rest).tail)
      else (parseMembers (parseValue fuel) rest.length rest).map fun p => (Json.obj p.1, p.2)
    else if c = 91 then
      if (skipWs rest).head? = some 93 then some (Json.arr [], (skipWs rest).tail)
      else (parseElements (parseValue fuel) rest.length rest).map fun p => (Json.arr p.1, p.2)
    else if c = 116 then
      (stripPrefix [114, 117, 101] rest).map fun s1 => (Json.bool true, s1)
    else if c = 102 then
      (stripPrefix [97, 108, 115, 101] rest).map fun s1 => (Json.bool false, s1)
    else if c = 110 then
      (stripPrefix [117, 108, 108] rest).map fun s1 => (Json.null, s1)
    else parseNumber (c :: rest)

/-- The states of the recogniser of well-formed UTF-8: between two characters,
or inside a character with one, two or three continuation bytes to come, the next
of which may be restricted (after `E0`, `ED`, `F0`, `F4`) so as to exclude
overlong forms, surrogates and code points above U+10FFFF. -/
inductive Utf8State where
  | start
  | tail1
  | tail2
  | tail3
  | afterE0
  | afterED
  | afterF0
  | afterF4
  | invalid
  deriving DecidableEq

/-- One byte read by the recogniser of well-formed UTF-8 (RFC 3629, section 4). -/
def utf8Step (st : Utf8State) (b : Nat) : Utf8State :=
  match st with
  | Utf8State.start =>
    if b < 0x80 then Utf8State.start
    else if 0xC2 ≤ b ∧ b ≤ 0xDF then Utf8State.tail1
    else if b = 0xE0 then Utf8State.afterE0
    else if b = 0xED then Utf8State.afterED
    else if 0xE1 ≤ b ∧ b ≤ 0xEF then Utf8State.tail2
    else if b = 0xF0 then Utf8State.afterF0
    else if 0xF1 ≤ b ∧ b ≤ 0xF3 then Utf8State.tail3
    else if b = 0xF4 then Utf8State.afterF4
    else Utf8State.invalid
  | Utf8State.tail1 => if 0x80 ≤ b ∧ b ≤ 0xBF then Utf8State.start else Utf8State.invalid
  | Utf8State.tail2 => if 0x80 ≤ b ∧ b ≤ 0xBF then Utf8State.tail1 else Utf8State.invalid
  | Utf8State.tail3 => if 0x80 ≤ b ∧ b ≤ 0xBF then Utf8State.tail2 else Utf8State.invalid
  | Utf8State.afterE0 => if 0xA0 ≤ b ∧ b ≤ 0xBF then Utf8State.tail1 else Utf8State.invalid
  | Utf8State.afterED => if 0x80 ≤ b ∧ b ≤ 0x9F then Utf8State.tail1 else Utf8State.invalid
  | Utf8State.afterF0 => if 0x90 ≤ b ∧ b ≤ 0xBF then Utf8State.tail2 else Utf8State.invalid
  | Utf8State.afterF4 => if 0x80 ≤ b ∧ b ≤ 0x8F then Utf8State.tail2 else Utf8State.invalid
  | Utf8State.invalid => Utf8State.invalid

/-- The bytes are well-formed UTF-8: a sequence of whole characters, none
overlong, none a surrogate, none above U+10FFFF. -/
def validUtf8 (bytes : List Nat) : Bool :=
  decide (bytes.foldl utf8Step Utf8State.start = Utf8State.start)

/-- The value written by a text, read as one value surrounded by optional
whitespace. -/
def parseJsonText (text : List Nat) : Option Json :=
  match parseValue text.length (skipWs text) with
  | none => none
  | some (v, rest) => if skipWs rest = [] then some v else none

/-- Decoding of a JSON text: the text must be well-formed UTF-8 and hold one
value, surrounded by optional whitespace. -/
def decodeJson (text : List Nat) : Option Json :=
  if validUtf8 text then parseJsonText text else none

/-- A byte that stands for itself inside a JSON string: not a control byte, not
the quote and not the backslash. -/
def jsonSafe (c : Nat) : Prop := 32 ≤ c ∧ c ≠ 34 ∧ c ≠ 92

instance : DecidablePred jsonSafe := fun c => by
  unfold jsonSafe
  infer_instance

/-- The largest time that `gmtime` converts, 2147485547-12-31T23:59:59Z: the last
second of the last year that fits `int tm_year`. -/
def GMTIME_MAX : Nat := 67768036191676799

/-- A byte that may follow a number without being taken into it. -/
def endsNumber (c : Nat) : Prop := isDigit c = false ∧ c ≠ 46 ∧ c ≠ 101 ∧ c ≠ 69

instance : DecidablePred endsNumber := fun c => by
  unfold endsNumber
  infer_instance

/-- The text of a number: followed by a delimiter it is read as the value `v`,
and it does not start with whitespace. -/
def NumberText (t : List Nat) (v : Json) : Prop :=
  ∀ (f c : Nat) (r : List Nat), endsNumber c →
    skipWs (t ++ c :: r) = t ++ c :: r ∧ parseValue (f + 1) (t ++ c :: r) = some (v, c :: r)

/-- The telemetry object written around the texts of its nine values. -/
def telemetryTextOf (deviceId timestamp hr sys dia temp spo2 resp status : List Nat) :
    List Nat :=
  123 :: 34 :: (cstr "deviceId" ++ 34 :: 58 :: 34 :: (deviceId ++ 34 :: 44 ::
    34 :: (cstr "timestamp" ++ 34 :: 58 :: 34 :: (timestamp ++ 34 :: 44 ::
    34 :: (cstr "heartRate" ++ 34 :: 58 :: (hr ++ 44 ::
    34 :: (cstr "bloodPressureSystolic" ++ 34 :: 58 :: (sys ++ 44 ::
    34 :: (cstr "bloodPressureDiastolic" ++ 34 :: 58 :: (dia ++ 44 ::
    34 :: (cstr "bodyTemperature" ++ 34 :: 58 :: (temp ++ 44 ::
    34 :: (cstr "spo2" ++ 34 :: 58 :: (spo2 ++ 44 ::
    34 :: (cstr "respiratoryRate" ++ 34 :: 58 :: (resp ++ 44 ::
    34 :: (cstr "patientStatus" ++ 34 :: 58 :: 34 :: (status ++
      34 :: [125]))))))))))))))))))

/-- The command object written around its message identifier and time stamp. -/
def commandTextOf (messageId timestamp : List Nat) : List Nat :=
  123 :: 34 :: (cstr "messageId" ++ 34 :: 58 :: 34 :: (messageId ++ 34 :: 44 ::
    34 :: (cstr "timestamp" ++ 34 :: 58 :: 34 :: (timestamp ++ 34 :: 44 ::
    cstr ("\"command\":\"request_diagnostic_data\"," ++
      "\"description\":\"診断データの要求\"," ++
      "\"parameters\":\x7b" ++
          "\"include_logs\":true," ++
          "\"time_range_hours\":24" ++
      "\x7d," ++
      "\"sender\":\"management-app-c\"," ++
      "\"priority\":\"normal\"" ++
      "\x7d")))))

/-! ## Theorems -/

/-- C1: for every heartRate, bodyTemperature and spo2, the status computed by the
two successive if-statements is "critical" exactly when the critical predicate
holds, "warning" exactly when the critical predicate fails and the warning
predicate holds, and "normal" exactly when both fail. -/
theorem patientStatus_priority (heartRate : Int) (bodyTemperature : ℚ) (spo2 : Int) :
    (patientStatus heartRate bodyTemperature spo2 = "critical" ↔
      (heartRate > 120 ∨ bodyTemperature > 38.5 ∨ spo2 < 90)) ∧
    (patientStatus heartRate bodyTemperature spo2 = "warning" ↔
      (¬ (heartRate > 120 ∨ bodyTemperature > 38.5 ∨ spo2 < 90) ∧
        (heartRate > 100 ∨ bodyTemperature > 37.5 ∨ spo2 < 95))) ∧
    (patientStatus heartRate bodyTemperature spo2 = "normal" ↔
      (¬ (heartRate > 120 ∨ bodyTemperature > 38.5 ∨ spo2 < 90) ∧
        ¬ (heartRate > 100 ∨ bodyTemperature > 37.5 ∨ spo2 < 95))) := by
  unfold patientStatus
  by_cases hc : heartRate > 120 ∨ bodyTemperature > 38.5 ∨ spo2 < 90
  · simp [hc]
  · by_cases hw : heartRate > 100 ∨ bodyTemperature > 37.5 ∨ spo2 < 95
    · simp [hc, hw]
    · simp [hc, hw]

/-- C2: for every six results of rand(), each drawn vital lies in its declared
range (temperature and respiratory rate as exact tenths). -/
theorem drawVitals_in_range (r1 r2 r3 r4 r5 r6 : Nat) :
    (60 ≤ (drawVitals r1 r2 r3 r4 r5 r6).heartRate ∧
      (drawVitals r1 r2 r3 r4 r5 r6).heartRate ≤ 99) ∧
    (110 ≤ (drawVitals r1 r2 r3 r4 r5 r6).bloodPressureSystolic ∧
      (drawVitals r1 r2 r3 r4 r5 r6).bloodPressureSystolic ≤ 139) ∧
    (70 ≤ (drawVitals r1 r2 r3 r4 r5 r6).bloodPressureDiastolic ∧
      (drawVitals r1 r2 r3 r4 r5 r6).bloodPressureDiastolic ≤ 89) ∧
    (36 ≤ (drawVitals r1 r2 r3 r4 r5 r6).bodyTemperature ∧
      (drawVitals r1 r2 r3 r4 r5 r6).bodyTemperature ≤ 37.9) ∧
    (95 ≤ (drawVitals r1 r2 r3 r4 r5 r6).spo2 ∧
      (drawVitals r1 r2 r3 r4 r5 r6).spo2 ≤ 100) ∧
    (12 ≤ (drawVitals r1 r2 r3 r4 r5 r6).respiratoryRate ∧
      (drawVitals r1 r2 r3 r4 r5 r6).respiratoryRate ≤ 19.9) := by
  have h1 : r1 % 40 < 40 := Nat.mod_lt _ (by norm_num)
  have h2 : r2 % 30 < 30 := Nat.mod_lt _ (by norm_num)
  have h3 : r3 % 20 < 20 := Nat.mod_lt _ (by norm_num)
  have h4 : r4 % 20 ≤ 19 := Nat.le_of_lt_succ (Nat.mod_lt _ (by norm_num))
  have h5 : r5 % 6 < 6 := Nat.mod_lt _ (by norm_num)
  have h6 : r6 % 80 ≤ 79 := Nat.le_of_lt_succ (Nat.mod_lt _ (by norm_num))
  have h4q : ((r4 % 20 : Nat) : ℚ) ≤ 19 := by exact_mod_cast h4
  have h6q : ((r6 % 80 : Nat) : ℚ) ≤ 79 := by exact_mod_cast h6
  have h4p : (0 : ℚ) ≤ ((r4 % 20 : Nat) : ℚ) := Nat.cast_nonneg _
  have h6p : (0 : ℚ) ≤ ((r6 % 80 : Nat) : ℚ) := Nat.cast_nonneg _
  simp only [drawVitals]
  refine ⟨⟨by omega, by omega⟩, ⟨by omega, by omega⟩, ⟨by omega, by omega⟩,
    ⟨by linarith, ?_⟩, ⟨by omega, by omega⟩, ⟨by linarith, ?_⟩⟩
  · norm_num; linarith
  · norm_num; linarith

/-! ### The completion wait of `runUploadMode` -/

theorem deliver_completed (sch : Schedule) (m : Moment) (st : UploadState) :
    (deliver sch m st).g_uploadCompleted =
      (st.g_uploadCompleted || decide (sch.callbackAt = m)) := by
  unfold deliver fileUploadCallback signalHandler
  by_cases h1 : sch.callbackAt = m <;> by_cases h2 : sch.sigintAt = m <;> simp [h1, h2]

theorem deliver_running (sch : Schedule) (m : Moment) (st : UploadState) :
    (deliver sch m st).g_continueRunning =
      (st.g_continueRunning && !decide (sch.sigintAt = m)) := by
  unfold deliver fileUploadCallback signalHandler
  by_cases h1 : sch.callbackAt = m <;> by_cases h2 : sch.sigintAt = m <;> simp [h1, h2]

/-- The loop stops at once when a flag forbids it. -/
theorem waitLoop_stopped (sch : Schedule) (t s : Nat) (st : UploadState)
    (h : (st.g_continueRunning && !st.g_uploadCompleted) = false) :
    waitLoop sch t s st = (t, s, st) := by
  cases t with
  | zero => rfl
  | succ t => simp [waitLoop, h]

/-- The count of sleeps never decreases. -/
theorem waitLoop_sleeps_ge (sch : Schedule) :
    ∀ (t s : Nat) (st : UploadState), s ≤ (waitLoop sch t s st).2.1 := by
  intro t
  induction t with
  | zero => intro s st; simp [waitLoop]
  | succ t ih =>
    intro s st
    by_cases hc : (st.g_continueRunning && !st.g_uploadCompleted) = true
    · have hstep : waitLoop sch (t + 1) s st =
          waitLoop sch t (s + 1) (deliver sch (Moment.duringSleep (s + 1)) st) := by
        simp [waitLoop, hc]
      rw [hstep]
      have := ih (s + 1) (deliver sch (Moment.duringSleep (s + 1)) st)
      omega
    · have hc2 : (st.g_continueRunning && !st.g_uploadCompleted) = false := by
        simpa using hc
      rw [waitLoop_stopped sch (t + 1) s st hc2]

/-- What the exit of the loop says about its entry and about the schedule. -/
theorem waitLoop_exit (sch : Schedule) :
    ∀ (t s : Nat) (st : UploadState),
      (waitLoop sch t s st).2.1 + (waitLoop sch t s st).1 = s + t ∧
      ((waitLoop sch t s st).2.2.g_uploadCompleted = true →
        st.g_uploadCompleted = true ∨
          ∃ k, s < k ∧ k ≤ (waitLoop sch t s st).2.1 ∧
            sch.callbackAt = Moment.duringSleep k) ∧
      (0 < (waitLoop sch t s st).1 →
        (waitLoop sch t s st).2.2.g_uploadCompleted = true ∨
          (waitLoop sch t s st).2.2.g_continueRunning = false) ∧
      ((waitLoop sch t s st).2.2.g_continueRunning = false →
        st.g_continueRunning = false ∨
          ∃ k, s < k ∧ k ≤ (waitLoop sch t s st).2.1 ∧
            sch.sigintAt = Moment.duringSleep k) := by
  intro t
  induction t with
  | zero =>
    intro s st
    simp [waitLoop]
    exact ⟨fun h => Or.inl h, fun h => Or.inl h⟩
  | succ t ih =>
    intro s st
    by_cases hc : (st.g_continueRunning && !st.g_uploadCompleted) = true
    · have hstep : waitLoop sch (t + 1) s st =
          waitLoop sch t (s + 1) (deliver sch (Moment.duringSleep (s + 1)) st) := by
        simp [waitLoop, hc]
      rw [hstep]
      obtain ⟨h1, h2, h3, h4⟩ := ih (s + 1) (deliver sch (Moment.duringSleep (s + 1)) st)
      have hle : s + 1 ≤
          (waitLoop sch t (s + 1) (deliver sch (Moment.duringSleep (s + 1)) st)).2.1 := by
        have := waitLoop_sleeps_ge sch t (s + 1) (deliver sch (Moment.duringSleep (s + 1)) st)
        exact this
      refine ⟨by omega, ?_, h3, ?_⟩
      · intro hdone
        rcases h2 hdone with h | ⟨k, hk1, hk2, hk3⟩
        · rw [deliver_completed] at h
          simp only [Bool.or_eq_true, decide_eq_true_eq] at h
          rcases h with h | h
          · exact Or.inl h
          · exact Or.inr ⟨s + 1, by omega, hle, h⟩
        · exact Or.inr ⟨k, by omega, hk2, hk3⟩
      · intro hstop
        rcases h4 hstop with h | ⟨k, hk1, hk2, hk3⟩
        · rw [deliver_running] at h
          simp only [Bool.and_eq_false_imp, Bool.not_eq_false', decide_eq_true_eq] at h
          by_cases hr : st.g_continueRunning = true
          · exact Or.inr ⟨s + 1, by omega, hle, h hr⟩
          · exact Or.inl (by simpa using hr)
        · exact Or.inr ⟨k, by omega, hk2, hk3⟩
    · have hc' : (st.g_continueRunning && !st.g_uploadCompleted) = false := by
        simpa using hc
      rw [waitLoop_stopped sch (t + 1) s st hc']
      refine ⟨rfl, fun h => Or.inl h, ?_, fun h => Or.inl h⟩
      intro _
      cases hr : st.g_continueRunning <;> cases hd : st.g_uploadCompleted <;>
        simp_all

/-- With no SIGINT, a callback during sleep `k` ends the loop after `k` sleeps. -/
theorem waitLoop_callback (sch : Schedule) (hs : sch.sigintAt = Moment.never) (k : Nat)
    (hk : sch.callbackAt = Moment.duringSleep k) :
    ∀ (t s : Nat) (st : UploadState), st.g_continueRunning = true →
      st.g_uploadCompleted = false → s < k → k ≤ s + t →
      waitLoop sch t s st = (s + t - k, k, { st with g_uploadCompleted := true }) := by
  intro t
  induction t with
  | zero => intro s st _ _ h1 h2; omega
  | succ t ih =>
    intro s st hr hd h1 h2
    have hstep : waitLoop sch (t + 1) s st =
        waitLoop sch t (s + 1) (deliver sch (Moment.duringSleep (s + 1)) st) := by
      simp [waitLoop, hr, hd]
    rw [hstep]
    by_cases hks : k = s + 1
    · subst hks
      have hdel : deliver sch (Moment.duringSleep (s + 1)) st =
          { st with g_uploadCompleted := true } := by
        simp [deliver, hk, hs, fileUploadCallback]
      rw [hdel, waitLoop_stopped _ _ _ _ (by simp)]
      congr 1
      omega
    · have hdel : deliver sch (Moment.duringSleep (s + 1)) st = st := by
        have hne : ¬ (Moment.duringSleep k = Moment.duringSleep (s + 1)) := by
          intro h; injection h with h; exact hks h
        simp [deliver, hk, hs, hne]
      rw [hdel, ih (s + 1) st hr hd (by omega) (by omega)]
      congr 1
      omega

/-- With no event during the remaining sleeps the loop runs until `timeout` is 0. -/
theorem waitLoop_quiet (sch : Schedule) :
    ∀ (t s : Nat) (st : UploadState), st.g_continueRunning = true →
      st.g_uploadCompleted = false →
      (∀ j, s < j → j ≤ s + t →
        sch.callbackAt ≠ Moment.duringSleep j ∧ sch.sigintAt ≠ Moment.duringSleep j) →
      waitLoop sch t s st = (0, s + t, st) := by
  intro t
  induction t with
  | zero => intro s st _ _ _; rfl
  | succ t ih =>
    intro s st hr hd hq
    have hstep : waitLoop sch (t + 1) s st =
        waitLoop sch t (s + 1) (deliver sch (Moment.duringSleep (s + 1)) st) := by
      simp [waitLoop, hr, hd]
    have hdel : deliver sch (Moment.duringSleep (s + 1)) st = st := by
      obtain ⟨h1, h2⟩ := hq (s + 1) (by omega) (by omega)
      simp [deliver, h1, h2]
    rw [hstep, hdel, ih (s + 1) st hr hd (fun j hj1 hj2 => hq j (by omega) (by omega))]
    congr 2
    omega

/-- A run that does not reach the wait returns 1. -/
theorem runUploadMode_not_started (env : UploadEnv) (sch : Schedule) (st : UploadState)
    (h : env.started = false) :
    (runUploadMode env sch st).exit.code = 1 ∧ (runUploadMode env sch st).sleeps = 0 := by
  unfold runUploadMode
  unfold UploadEnv.started at h
  cases h1 : env.statOk <;> cases h2 : env.fopenOk <;> cases h3 : env.mallocOk <;>
    cases h4 : env.readComplete <;> cases h5 : env.submitOk <;>
    simp_all [UploadExit.code]

/-- A run that reaches the wait, in terms of `waitLoop`. -/
theorem runUploadMode_started (env : UploadEnv) (sch : Schedule) (st : UploadState)
    (h : env.started = true) :
    runUploadMode env sch st =
      if (!(waitLoop sch 60 0 (afterReset sch st)).2.2.g_uploadCompleted &&
          (waitLoop sch 60 0 (afterReset sch st)).1 == 0) = true then
        ⟨UploadExit.uploadTimeout, (waitLoop sch 60 0 (afterReset sch st)).2.1, true⟩
      else ⟨UploadExit.completed, (waitLoop sch 60 0 (afterReset sch st)).2.1, true⟩ := by
  unfold UploadEnv.started at h
  simp only [Bool.and_eq_true] at h
  obtain ⟨⟨⟨⟨h1, h2⟩, h3⟩, h4⟩, h5⟩ := h
  simp [runUploadMode, h1, h2, h3, h4, h5, afterReset]

/-- C4: the loop makes at most 60 sleeps in every case; with the cancellation
flag never raised, a completion during poll `k ≤ 60` ends the wait after exactly
`k` sleeps without a timeout report, and with no completion at all the wait ends
after exactly 60 sleeps with the timeout result 1. -/
theorem runUploadMode_wait_sleeps (env : UploadEnv) (sch : Schedule) (st : UploadState) :
    (runUploadMode env sch st).sleeps ≤ 60 ∧
    (env.started = true → st.g_continueRunning = true → sch.sigintAt = Moment.never →
      (∀ k, 1 ≤ k → k ≤ 60 → sch.callbackAt = Moment.duringSleep k →
        (runUploadMode env sch st).sleeps = k ∧
        (runUploadMode env sch st).exit = UploadExit.completed) ∧
      (sch.callbackAt = Moment.never →
        (runUploadMode env sch st).sleeps = 60 ∧
        (runUploadMode env sch st).exit = UploadExit.uploadTimeout ∧
        (runUploadMode env sch st).exit.code = 1)) := by
  constructor
  · by_cases hstart : env.started = true
    · rw [runUploadMode_started env sch st hstart]
      have hsum := (waitLoop_exit sch 60 0 (afterReset sch st)).1
      split_ifs <;> simp only <;> omega
    · rw [(runUploadMode_not_started env sch st (by simpa using hstart)).2]
      omega
  · intro hstart hrun hsig
    have hr0 : (afterReset sch st).g_continueRunning = true := by
      simp [afterReset, deliver_running, hrun, hsig]
    have hd0 : (afterReset sch st).g_uploadCompleted = false := rfl
    rw [runUploadMode_started env sch st hstart]
    constructor
    · intro k hk1 hk2 hcb
      rw [waitLoop_callback sch hsig k hcb 60 0 _ hr0 hd0 (by omega) (by omega)]
      simp
    · intro hcb
      rw [waitLoop_quiet sch 60 0 _ hr0 hd0 (by
        intro j _ _
        rw [hcb, hsig]
        exact ⟨fun h => Moment.noConfusion h, fun h => Moment.noConfusion h⟩)]
      simp [UploadExit.code, hd0]

theorem runUploadMode_wait_sleeps_witness :
    (runUploadMode ⟨true, true, true, true, true⟩
        ⟨Moment.duringSleep 7, FileUploadResult.FILE_UPLOAD_OK, Moment.never⟩
        initialFlags).sleeps = 7 ∧
    (runUploadMode ⟨true, true, true, true, true⟩
        ⟨Moment.never, FileUploadResult.FILE_UPLOAD_OK, Moment.never⟩
        initialFlags).sleeps = 60 :=
  ⟨(((runUploadMode_wait_sleeps ⟨true, true, true, true, true⟩
        ⟨Moment.duringSleep 7, FileUploadResult.FILE_UPLOAD_OK, Moment.never⟩
        initialFlags).2 rfl rfl rfl).1 7 (by decide) (by decide) rfl).1,
    (((runUploadMode_wait_sleeps ⟨true, true, true, true, true⟩
        ⟨Moment.never, FileUploadResult.FILE_UPLOAD_OK, Moment.never⟩
        initialFlags).2 rfl rfl rfl).2 rfl).1⟩

/-! ### The `--send_all` loop -/

/-- C5 (as stated, refuted): a target whose message cannot be created gets no
submission at all, so the submissions are not one per target. -/
theorem sendAll_creation_failure_no_submission :
    submittedTargets
        (sendAll [(cstr "icu-device01", ⟨0, false, true, 0, fun _ => 0, 0⟩)] 0) = [] ∧
    submittedTargets
        (sendAll [(cstr "icu-device01", ⟨0, false, true, 0, fun _ => 0, 0⟩)] 0) ≠
      [cstr "icu-device01"] := by
  constructor <;> decide

/-- C5 (amended): the loop calls `sendMessageToDevice` once per target, in list
order, whatever the outcome of the previous target; and the submissions are, in
list order, exactly one for each target whose message was created, addressed to
that target (none for a target whose message creation failed). -/
theorem sendAll_one_submission_per_created (targets : List (List Nat × SendEnv)) (g : Nat) :
    (sendAll targets g).map (fun run => run.deviceId) = targets.map Prod.fst ∧
    submittedTargets (sendAll targets g) =
      (targets.filter fun t => t.2.createOk).map Prod.fst := by
  induction targets generalizing g with
  | nil => simp [sendAll, submittedTargets]
  | cons t rest ih =>
    obtain ⟨deviceId, env⟩ := t
    obtain ⟨ih1, ih2⟩ := ih ((sendMessageToDevice env deviceId g).g_messageCount +
      env.cbAfterReturn)
    unfold submittedTargets at ih2 ⊢
    constructor
    · simp only [sendAll, List.map_cons, ih1]
      congr 1
      unfold sendMessageToDevice
      split_ifs <;> rfl
    · simp only [sendAll]
      cases hc : env.createOk with
      | false =>
        have hsub : (sendMessageToDevice env deviceId g).submission = none := by
          simp [sendMessageToDevice, hc]
        simp [List.filterMap_cons, hsub, hc, ih2]
      | true =>
        have hsub : ∃ sub, (sendMessageToDevice env deviceId g).submission = some sub ∧
            sub.target = deviceId := by
          unfold sendMessageToDevice
          cases hs : env.submitOk <;> simp [hc, hs]
        obtain ⟨sub, hsub, htar⟩ := hsub
        simp [List.filterMap_cons, hsub, hc, ih2, htar]

/-! ### Where the completion flags are reset -/

/-- C10 (the code at the failing inputs): an upload whose completion callback
reports FILE_UPLOAD_OK after the submission and before line 319 ends in 60 sleeps
and the timeout result, the notification being erased by the reset; and when the
confirmation of a timed-out first send arrives during the pause of `main`, the
second command is submitted with `g_messageCount` equal to 1 and its wait makes no
sleep. -/
theorem reset_after_submission_loses_notification :
    runUploadMode ⟨true, true, true, true, true⟩
        ⟨Moment.afterSubmit, FileUploadResult.FILE_UPLOAD_OK, Moment.never⟩ initialFlags =
      ⟨UploadExit.uploadTimeout, 60, true⟩ ∧
    (sendAll
        [(cstr "icu-device01", ⟨1704164645, true, true, 0, fun _ => 0, 1⟩),
         (cstr "icu-device02", ⟨1704164647, true, true, 0, fun _ => 0, 0⟩)] 0).map
        (fun run => (run.sleeps, run.submission.map fun sub => sub.countAtSubmit)) =
      [(10, some 0), (0, some 1)] := by
  constructor <;> decide

/-! ### Decimal output and calendar fields -/

theorem decimalAux_fuel :
    ∀ (f g n : Nat), n < f → n < g → decimalAux f n = decimalAux g n := by
  intro f
  induction f with
  | zero => intro g n h; omega
  | succ f ih =>
    intro g n hf hg
    cases g with
    | zero => omega
    | succ g =>
      unfold decimalAux
      by_cases h : n < 10
      · simp [h]
      · simp only [h, if_false]
        rw [ih g (n / 10) (by omega) (by omega)]

/-- The digits of `n` are those of `n / 10` followed by the last digit. -/
theorem decimal_eq (n : Nat) :
    decimal n = if n < 10 then [48 + n] else decimal (n / 10) ++ [48 + n % 10] := by
  unfold decimal
  conv_lhs => unfold decimalAux
  by_cases h : n < 10
  · simp [h]
  · simp only [h, if_false]
    rw [decimalAux_fuel n (n / 10 + 1) (n / 10) (by omega) (by omega)]

theorem decimal_four_digits (n : Nat) (h1 : 1000 ≤ n) (h2 : n ≤ 9999) :
    decimal n = [digitAt n 3, digitAt n 2, digitAt n 1, digitAt n 0] := by
  rw [decimal_eq n, if_neg (by omega), decimal_eq (n / 10), if_neg (by omega),
    decimal_eq (n / 10 / 10), if_neg (by omega), decimal_eq (n / 10 / 10 / 10),
    if_pos (by omega)]
  simp only [digitAt, List.cons_append, List.nil_append, List.cons.injEq, and_true]
  refine ⟨by omega, by omega, by omega, by omega⟩

theorem pad2_two_digits (n : Nat) (h : n < 100) : pad2 n = [digitAt n 1, digitAt n 0] := by
  unfold pad2
  by_cases h10 : n < 10
  · rw [if_pos h10, decimal_eq n, if_pos h10]
    simp only [digitAt, List.cons.injEq, and_true]
    constructor <;> omega
  · rw [if_neg h10, decimal_eq n, if_neg h10, decimal_eq (n / 10), if_pos (by omega)]
    simp only [digitAt, List.cons_append, List.nil_append, List.cons.injEq, and_true]
    constructor <;> omega

/-- The ranges of the calendar fields computed by `gmtime`. -/
theorem gmtime_fields (now : Nat) :
    (gmtime now).tm_sec < 60 ∧ (gmtime now).tm_min < 60 ∧ (gmtime now).tm_hour < 24 ∧
    1 ≤ (gmtime now).tm_mday ∧ (gmtime now).tm_mday ≤ 31 ∧ (gmtime now).tm_mon < 12 := by
  simp only [gmtime]
  refine ⟨by omega, by omega, by omega, by omega, by omega, ?_⟩
  split_ifs <;> omega

/-- No time since the epoch lies before 1970. -/
theorem gmtime_year_ge (now : Nat) : 70 ≤ (gmtime now).tm_year := by
  simp only [gmtime]
  obtain ⟨z, hz⟩ : ∃ z, z = now / 86400 + 719468 := ⟨_, rfl⟩
  rw [← hz]
  have hz1 : 719468 ≤ z := by omega
  clear hz
  by_cases hera : 5 ≤ z / 146097
  · have : 2000 ≤ z / 146097 * 400 := by omega
    generalize ((z % 146097 - z % 146097 / 1460 + z % 146097 / 36524 -
      z % 146097 / 146096) / 365) = yoe
    generalize (if (if _ < 10 then _ else _) ≤ 2 then 1 else 0) = c
    omega
  · have he : z / 146097 = 4 := by omega
    have hd : 135080 ≤ z % 146097 := by omega
    have hd2 : z % 146097 < 146097 := Nat.mod_lt _ (by norm_num)
    rw [he]
    generalize z % 146097 = doe at hd hd2 ⊢
    have hy : 369 ≤ (doe - doe / 1460 + doe / 36524 - doe / 146096) / 365 := by omega
    by_cases hy2 : 370 ≤ (doe - doe / 1460 + doe / 36524 - doe / 146096) / 365
    · generalize ((doe - doe / 1460 + doe / 36524 - doe / 146096) / 365) = yoe at hy2 ⊢
      generalize (if (if _ < 10 then _ else _) ≤ 2 then 1 else 0) = c
      omega
    · have hy3 : (doe - doe / 1460 + doe / 36524 - doe / 146096) / 365 = 369 := by omega
      rw [hy3]
      have : 10 ≤ (5 * (doe - (365 * 369 + 369 / 4 - 369 / 100)) + 2) / 153 := by omega
      split_ifs <;> omega

/-- For a year of four digits, `%Y%m%d%H%M%S` prints the 14-digit stamp. -/
theorem strftime_stamp14 (now : Nat) (hyear : (gmtime now).tm_year + 1900 ≤ 9999) :
    strftime 16 "%Y%m%d%H%M%S" (gmtime now) = some (stamp14 (gmtime now)) := by
  obtain ⟨hs, hmi, hh, _, hd, hmo⟩ := gmtime_fields now
  have hy := gmtime_year_ge now
  have hout : strftimeOut (cstr "%Y%m%d%H%M%S") (gmtime now) = stamp14 (gmtime now) := by
    show decimal ((gmtime now).tm_year + 1900) ++ (pad2 ((gmtime now).tm_mon + 1) ++
      (pad2 (gmtime now).tm_mday ++ (pad2 (gmtime now).tm_hour ++
        (pad2 (gmtime now).tm_min ++ (pad2 (gmtime now).tm_sec ++ []))))) = _
    rw [decimal_four_digits _ (by omega) hyear, pad2_two_digits _ (by omega),
      pad2_two_digits _ (by omega), pad2_two_digits _ (by omega),
      pad2_two_digits _ (by omega), pad2_two_digits _ (by omega)]
    rfl
  unfold strftime
  simp only [hout]
  rw [if_pos (by simp [stamp14])]

/-! ### The base name -/

theorem strrchr_none (c : Nat) : ∀ (s : List Nat), strrchr s c = none → c ∉ s := by
  intro s
  induction s with
  | nil => intro _; simp
  | cons x rest ih =>
    intro h
    unfold strrchr at h
    cases hr : strrchr rest c with
    | some i => simp [hr] at h
    | none =>
      simp only [hr] at h
      by_cases hx : x = c
      · simp [hx] at h
      · simp only [List.mem_cons, not_or]
        exact ⟨fun e => hx e.symm, ih hr⟩

theorem strrchr_some (c : Nat) :
    ∀ (s : List Nat) (i : Nat), strrchr s c = some i →
      ∃ pre post, s = pre ++ c :: post ∧ pre.length = i ∧ c ∉ post := by
  intro s
  induction s with
  | nil => intro i h; simp [strrchr] at h
  | cons x rest ih =>
    intro i h
    unfold strrchr at h
    cases hr : strrchr rest c with
    | some j =>
      simp only [hr, Option.some.injEq] at h
      obtain ⟨pre, post, hs, hl, hn⟩ := ih j hr
      exact ⟨x :: pre, post, by simp [hs], by simp [hl, h], hn⟩
    | none =>
      simp only [hr] at h
      by_cases hx : x = c
      · simp only [hx, if_true, Option.some.injEq] at h
        exact ⟨[], rest, by simp [hx], by simp [h], strrchr_none c rest hr⟩
      · simp [hx] at h

/-- The pointer arithmetic of lines 284-285 yields the base name. -/
theorem fileName_eq_baseName (filePath : List Nat) :
    (match strrchr filePath 47 with
      | none => filePath
      | some i => filePath.drop (i + 1)) = baseName filePath := by
  unfold baseName
  cases hr : strrchr filePath 47 with
  | none =>
    have hn := strrchr_none 47 filePath hr
    have : (filePath.reverse.takeWhile fun c => decide (c ≠ 47)) = filePath.reverse := by
      rw [List.takeWhile_eq_self_iff]
      intro a ha
      have : a ∈ filePath := List.mem_reverse.mp ha
      simp only [ne_eq, decide_not, Bool.not_eq_eq_eq_not, Bool.not_true,
        decide_eq_false_iff_not]
      intro e; exact hn (e ▸ this)
    show filePath = (filePath.reverse.takeWhile fun c => decide (c ≠ 47)).reverse
    rw [this, List.reverse_reverse]
  | some i =>
    obtain ⟨pre, post, hs, hl, hn⟩ := strrchr_some 47 filePath i hr
    subst hs
    have hdrop : (pre ++ 47 :: post).drop (i + 1) = post := by
      rw [← hl]
      simp
    have htw : ((pre ++ 47 :: post).reverse.takeWhile fun c => decide (c ≠ 47)) =
        post.reverse := by
      rw [List.reverse_append, List.reverse_cons, List.append_assoc,
        List.takeWhile_append_of_pos]
      · simp
      · intro a ha
        have : a ∈ post := List.mem_reverse.mp ha
        simp only [ne_eq, decide_not, Bool.not_eq_eq_eq_not, Bool.not_true,
          decide_eq_false_iff_not]
        intro e; exact hn (e ▸ this)
    simp only [hdrop, htw, List.reverse_reverse]

/-- C6: for a time whose year is at most 9999 and a result of at most 255
characters, the destination name built by `runUploadMode` is the deviceId, "_",
the 14-digit yyyyMMddHHmmss rendering of the time, "_", and the part of the path
after its last "/" (the whole path when it has none). -/
theorem destFileName_spec (deviceId filePath : List Nat) (now : Nat)
    (hyear : (gmtime now).tm_year + 1900 ≤ 9999)
    (hfit : (deviceId ++ cstr "_" ++ stamp14 (gmtime now) ++ cstr "_" ++
      baseName filePath).length ≤ 255) :
    destFileName deviceId filePath now =
      some (deviceId ++ cstr "_" ++ stamp14 (gmtime now) ++ cstr "_" ++
        baseName filePath) := by
  have hfmt : ∀ a b c : List Nat, snprintf 256 "%s_%s_%s"
      [PrintfArg.str a, PrintfArg.str b, PrintfArg.str c] =
      (a ++ cstr "_" ++ b ++ cstr "_" ++ c).take 255 := by
    intro a b c
    have h95 : cstr "_" = [95] := rfl
    have hv : vformat (cstr "%s_%s_%s") [PrintfArg.str a, PrintfArg.str b, PrintfArg.str c] =
        a ++ 95 :: (b ++ 95 :: (c ++ [])) := rfl
    unfold snprintf
    rw [hv, h95]
    simp
  unfold destFileName
  simp only [strftime_stamp14 now hyear, fileName_eq_baseName, hfmt, Option.map_some']
  rw [List.take_of_length_le hfit]

theorem destFileName_spec_witness :
    gmtime 1704164645 = ⟨5, 4, 3, 2, 0, 124⟩ ∧
    destFileName (cstr "dev1") (cstr "scan.jpg") 1704164645 =
      some (cstr "dev1_20240102030405_scan.jpg") :=
  ⟨by decide, by
    rw [destFileName_spec (cstr "dev1") (cstr "scan.jpg") 1704164645 (by decide) (by decide)]
    decide⟩

/-! ### The message identifier -/

/-- Reading back the digits printed for `n` gives `n`. -/
theorem digitsValue_decimal (n : Nat) : digitsValue (decimal n) = n := by
  induction n using Nat.strong_induction_on with
  | _ n ih =>
    rw [decimal_eq]
    by_cases h : n < 10
    · simp [h, digitsValue]
    · rw [if_neg h]
      have := ih (n / 10) (by omega)
      unfold digitsValue at this ⊢
      rw [List.foldl_append, this]
      simp only [List.foldl_cons, List.foldl_nil]
      omega

theorem decimal_length_le (k : Nat) : ∀ n, n < 10 ^ (k + 1) → (decimal n).length ≤ k + 1 := by
  induction k with
  | zero =>
    intro n h
    rw [decimal_eq, if_pos (by simpa using h)]
    simp
  | succ k ih =>
    intro n h
    rw [decimal_eq]
    by_cases h10 : n < 10
    · simp [h10]
    · rw [if_neg h10]
      have hlt : n / 10 < 10 ^ (k + 1) := by
        rw [Nat.div_lt_iff_lt_mul (by norm_num)]
        rw [pow_succ] at h
        exact h
      have := ih (n / 10) hlt
      simp only [List.length_append, List.length_singleton]
      omega

/-- The identifier is "msg-" followed by the decimal digits of the time. -/
theorem messageIdOf_eq (now : Nat) (h : now < 2 ^ 63) :
    messageIdOf now = cstr "msg-" ++ decimal now := by
  have hv : vformat (cstr "msg-%ld") [PrintfArg.int (now : Int)] =
      109 :: 115 :: 103 :: 45 :: (fmtInt (now : Int) ++ []) := rfl
  have hi : fmtInt (now : Int) = decimal now := by
    unfold fmtInt
    rw [if_neg (by omega)]
    simp
  have hc : cstr "msg-" = [109, 115, 103, 45] := rfl
  have hl := decimal_length_le 18 now (by
    calc now < 2 ^ 63 := h
      _ ≤ 10 ^ (18 + 1) := by norm_num)
  unfold messageIdOf snprintf
  rw [hv, hi, hc, List.take_of_length_le (by simp; omega)]
  simp

set_option maxRecDepth 100000 in
/-- C8 (as stated, refuted): in a `--send_all` run whose first two calls fall in
the same clock second (the first confirmation arrives during the first poll), the
two commands carry the same message, hence the same messageId "msg-1704164645". -/
theorem messageId_repeats_within_one_second :
    (sendAll
        [(cstr "icu-device01",
            ⟨1704164645, true, true, 0, fun k => if k = 1 then 1 else 0, 0⟩),
         (cstr "icu-device02",
            ⟨1704164645, true, true, 0, fun k => if k = 1 then 1 else 0, 0⟩)] 0).map
        (fun run => (run.sleeps, run.submission.map fun sub => (sub.target, sub.message))) =
      [(1, some (cstr "icu-device01", some (cstr ("\x7b\"messageId\":\"msg-1704164645\"," ++
          "\"timestamp\":\"2024-01-02T03:04:05Z\",\"command\":\"request_diagnostic_data\"," ++
          "\"description\":\"診断データの要求\",\"parameters\":\x7b\"include_logs\":true," ++
          "\"time_range_hours\":24\x7d,\"sender\":\"management-app-c\"," ++
          "\"priority\":\"normal\"\x7d")))),
       (1, some (cstr "icu-device02", some (cstr ("\x7b\"messageId\":\"msg-1704164645\"," ++
          "\"timestamp\":\"2024-01-02T03:04:05Z\",\"command\":\"request_diagnostic_data\"," ++
          "\"description\":\"診断データの要求\",\"parameters\":\x7b\"include_logs\":true," ++
          "\"time_range_hours\":24\x7d,\"sender\":\"management-app-c\"," ++
          "\"priority\":\"normal\"\x7d"))))] ∧
    messageIdOf 1704164645 = cstr "msg-1704164645" := by
  constructor <;> decide

/-- C8 (amended): the messageId is "msg-" followed by the decimal value of
`time(NULL)`, so two calls produce different messageId values exactly when their
clock values differ in whole seconds; two calls within the same clock second
produce the same messageId. -/
theorem messageId_differs_iff (now1 now2 : Nat) (h1 : now1 < 2 ^ 63) (h2 : now2 < 2 ^ 63) :
    messageIdOf now1 ≠ messageIdOf now2 ↔ now1 ≠ now2 := by
  rw [messageIdOf_eq now1 h1, messageIdOf_eq now2 h2]
  constructor
  · intro h e
    exact h (by rw [e])
  · intro h e
    have e2 := List.append_cancel_left e
    have := congrArg digitsValue e2
    rw [digitsValue_decimal, digitsValue_decimal] at this
    exact h this

theorem messageId_differs_iff_witness :
    messageIdOf 1704164645 ≠ messageIdOf 1704164646 :=
  (messageId_differs_iff 1704164645 1704164646 (by norm_num) (by norm_num)).mpr (by decide)

/-! ### Decoding what printf wrote -/

theorem fmtInt_natCast (n : Nat) : fmtInt (n : Int) = decimal n := by
  unfold fmtInt
  rw [if_neg (by omega)]
  simp

theorem roundHalfEven_intCast (z : Int) : roundHalfEven (z : ℚ) = z := by
  unfold roundHalfEven
  simp

/-- The conversion `%.1f` of an exact number of tenths. -/
theorem fmtFixed1_tenths (t : Nat) :
    fmtFixed1 ((t : ℚ) / 10) = decimal (t / 10) ++ [46, 48 + t % 10] := by
  have hpos : (0 : ℚ) ≤ (t : ℚ) / 10 := by positivity
  have h10 : |(t : ℚ) / 10| * 10 = ((t : Int) : ℚ) := by
    rw [abs_of_nonneg hpos]
    push_cast
    field_simp
  unfold fmtFixed1
  rw [h10, roundHalfEven_intCast, if_neg (by linarith)]
  simp

theorem decimal_isDigit (n : Nat) : ∀ c ∈ decimal n, isDigit c = true := by
  induction n using Nat.strong_induction_on with
  | _ n ih =>
    rw [decimal_eq]
    by_cases h : n < 10
    · rw [if_pos h]
      intro c hc
      simp only [List.mem_singleton] at hc
      subst hc
      simp only [isDigit, Bool.and_eq_true, decide_eq_true_eq]
      omega
    · rw [if_neg h]
      intro c hc
      rw [List.mem_append] at hc
      rcases hc with hc | hc
      · exact ih (n / 10) (by omega) c hc
      · simp only [List.mem_singleton] at hc
        subst hc
        simp only [isDigit, Bool.and_eq_true, decide_eq_true_eq]
        omega

/-- The first digit printed for a positive number is not 0. -/
theorem decimal_head (n : Nat) (hn : 0 < n) :
    ∃ d tl, decimal n = d :: tl ∧ 49 ≤ d ∧ d ≤ 57 := by
  induction n using Nat.strong_induction_on with
  | _ n ih =>
    rw [decimal_eq]
    by_cases h : n < 10
    · rw [if_pos h]
      exact ⟨48 + n, [], rfl, by omega, by omega⟩
    · rw [if_neg h]
      obtain ⟨d, tl, he, h1, h2⟩ := ih (n / 10) (by omega) (by omega)
      exact ⟨d, tl ++ [48 + n % 10], by rw [he]; rfl, h1, h2⟩

theorem decimal_zero : decimal 0 = [48] := rfl

theorem spanDigits_append (ds rest : List Nat) (hds : ∀ c ∈ ds, isDigit c = true)
    (hrest : spanDigits rest = ([], rest)) : spanDigits (ds ++ rest) = (ds, rest) := by
  induction ds with
  | nil => simpa using hrest
  | cons d ds ih =>
    have hd : isDigit d = true := hds d (by simp)
    have := ih (fun c hc => hds c (by simp [hc]))
    simp [spanDigits, hd, this]

theorem spanDigits_stop (c : Nat) (r : List Nat) (hc : isDigit c = false) :
    spanDigits (c :: r) = ([], c :: r) := by
  simp [spanDigits, hc]

/-- A printed non-negative integer followed by a delimiter decodes to itself. -/
theorem parseNumber_decimal (n c : Nat) (r : List Nat) (hc : endsNumber c) :
    parseNumber (decimal n ++ c :: r) = some (Json.num (n : Int) 0, c :: r) := by
  obtain ⟨hcd, h46, h101, h69⟩ := hc
  have hspan : spanDigits (decimal n ++ c :: r) = (decimal n, c :: r) :=
    spanDigits_append _ _ (decimal_isDigit n) (spanDigits_stop c r hcd)
  have hne : decimal n ≠ [] := by
    rcases Nat.eq_zero_or_pos n with h0 | hpos
    · subst h0; simp [decimal_zero]
    · obtain ⟨d, tl, he, -, -⟩ := decimal_head n hpos
      simp [he]
  have hhead : (decimal n ++ c :: r).head? ≠ some 45 := by
    intro h
    rcases Nat.eq_zero_or_pos n with h0 | hpos
    · subst h0; simp [decimal_zero] at h
    · obtain ⟨d, tl, he, h1, h2⟩ := decimal_head n hpos
      rw [he] at h
      simp at h
      omega
  have hlead : ¬ ((decimal n).head? = some 48 ∧ 1 < (decimal n).length) := by
    rintro ⟨h, hl⟩
    rcases Nat.eq_zero_or_pos n with h0 | hpos
    · subst h0; simp [decimal_zero] at hl
    · obtain ⟨d, tl, he, h1, h2⟩ := decimal_head n hpos
      rw [he] at h
      simp at h
      omega
  unfold parseNumber
  simp only [hhead, decide_False, Bool.false_eq_true, if_false, hspan, hne, hlead]
  have hfin : finishNumber false (decimal n) [] (c :: r) =
      some (Json.num (n : Int) 0, c :: r) := by
    unfold finishNumber
    simp [h101, h69, digitsValue_decimal]
  split
  · next s3 heq =>
    simp only [List.cons.injEq] at heq
    exact absurd heq.1 h46
  · exact hfin

/-- A printed number with one decimal followed by a delimiter decodes to the
number of tenths with exponent -1. -/
theorem parseNumber_tenths (t c : Nat) (r : List Nat) (hc : endsNumber c) :
    parseNumber (decimal (t / 10) ++ 46 :: (48 + t % 10) :: c :: r) =
      some (Json.num (t : Int) (-1), c :: r) := by
  obtain ⟨hcd, h46, h101, h69⟩ := hc
  have h46d : isDigit 46 = false := by decide
  have hspan : spanDigits (decimal (t / 10) ++ 46 :: (48 + t % 10) :: c :: r) =
      (decimal (t / 10), 46 :: (48 + t % 10) :: c :: r) :=
    spanDigits_append _ _ (decimal_isDigit _) (spanDigits_stop 46 _ h46d)
  have hlast : isDigit (48 + t % 10) = true := by
    simp only [isDigit, Bool.and_eq_true, decide_eq_true_eq]
    omega
  have hspan2 : spanDigits ((48 + t % 10) :: c :: r) = ([48 + t % 10], c :: r) := by
    simp [spanDigits, hlast, hcd]
  have hne : decimal (t / 10) ≠ [] := by
    rcases Nat.eq_zero_or_pos (t / 10) with h0 | hpos
    · rw [h0]; simp [decimal_zero]
    · obtain ⟨d, tl, he, -, -⟩ := decimal_head _ hpos
      simp [he]
  have hhead : (decimal (t / 10) ++ 46 :: (48 + t % 10) :: c :: r).head? ≠ some 45 := by
    intro h
    rcases Nat.eq_zero_or_pos (t / 10) with h0 | hpos
    · rw [h0] at h; simp [decimal_zero] at h
    · obtain ⟨d, tl, he, h1, h2⟩ := decimal_head _ hpos
      rw [he] at h
      simp at h
      omega
  have hlead : ¬ ((decimal (t / 10)).head? = some 48 ∧ 1 < (decimal (t / 10)).length) := by
    rintro ⟨h, hl⟩
    rcases Nat.eq_zero_or_pos (t / 10) with h0 | hpos
    · rw [h0] at hl; simp [decimal_zero] at hl
    · obtain ⟨d, tl, he, h1, h2⟩ := decimal_head _ hpos
      rw [he] at h
      simp at h
      omega
  have hval : digitsValue (decimal (t / 10) ++ [48 + t % 10]) = t := by
    unfold digitsValue
    rw [List.foldl_append]
    have := digitsValue_decimal (t / 10)
    unfold digitsValue at this
    rw [this]
    simp only [List.foldl_cons, List.foldl_nil]
    omega
  unfold parseNumber
  simp only [hhead, decide_False, Bool.false_eq_true, if_false, hspan, hne, hlead, hspan2]
  simp only [List.cons_ne_nil, if_false]
  unfold finishNumber
  simp [h101, h69, hval]

theorem parseChars_safe (rest : List Nat) :
    ∀ (s : List Nat) (fuel : Nat), (∀ c ∈ s, jsonSafe c) → s.length < fuel →
      parseChars fuel (s ++ 34 :: rest) = some (s, rest) := by
  intro s
  induction s with
  | nil =>
    intro fuel _ hf
    obtain ⟨f, rfl⟩ : ∃ f, fuel = f + 1 := ⟨fuel - 1, by omega⟩
    rw [List.nil_append, parseChars, if_pos rfl]
  | cons c s ih =>
    intro fuel hs hf
    obtain ⟨f, rfl⟩ : ∃ f, fuel = f + 1 := ⟨fuel - 1, by omega⟩
    obtain ⟨h32, h34, h92⟩ := hs c (by simp)
    have := ih f (fun x hx => hs x (by simp [hx])) (by simpa using hf)
    rw [List.cons_append, parseChars, if_neg h34, if_neg h92,
      if_neg (Nat.not_lt.mpr h32), this]
    rfl

/-- A string of safe bytes is decoded up to its closing quote. -/
theorem parseStringBody_safe (s rest : List Nat) (hs : ∀ c ∈ s, jsonSafe c) :
    parseStringBody (s ++ 34 :: rest) = some (s, rest) := by
  unfold parseStringBody
  exact parseChars_safe rest s _ hs (by simp)

theorem skipWs_cons (c : Nat) (r : List Nat) (h : isWhitespace c = false) :
    skipWs (c :: r) = c :: r := by
  simp [skipWs, h]

theorem isDigit_not_whitespace (c : Nat) (h : isDigit c = true) : isWhitespace c = false := by
  simp only [isDigit, Bool.and_eq_true, decide_eq_true_eq] at h
  simp only [isWhitespace, Bool.or_eq_false_iff, decide_eq_false_iff_not]
  omega

/-- The digits printed for a number start with a digit. -/
theorem decimal_cons (n : Nat) : ∃ d tl, decimal n = d :: tl ∧ isDigit d = true := by
  rcases Nat.eq_zero_or_pos n with h0 | hpos
  · subst h0
    exact ⟨48, [], rfl, by decide⟩
  · obtain ⟨d, tl, he, h1, h2⟩ := decimal_head n hpos
    refine ⟨d, tl, he, ?_⟩
    simp only [isDigit, Bool.and_eq_true, decide_eq_true_eq]
    omega

theorem skipWs_decimal (n : Nat) (r : List Nat) : skipWs (decimal n ++ r) = decimal n ++ r := by
  obtain ⟨d, tl, he, hd⟩ := decimal_cons n
  rw [he, List.cons_append]
  exact skipWs_cons d _ (isDigit_not_whitespace d hd)

/-- A text that starts with a digit is read as a number. -/
theorem parseValue_digit (f d : Nat) (r : List Nat) (hd : isDigit d = true) :
    parseValue (f + 1) (d :: r) = parseNumber (d :: r) := by
  simp only [isDigit, Bool.and_eq_true, decide_eq_true_eq] at hd
  rw [parseValue, if_neg (by omega), if_neg (by omega), if_neg (by omega), if_neg (by omega),
    if_neg (by omega), if_neg (by omega)]

theorem parseValue_decimal (f n c : Nat) (r : List Nat) (hc : endsNumber c) :
    parseValue (f + 1) (decimal n ++ c :: r) = some (Json.num (n : Int) 0, c :: r) := by
  rw [← parseNumber_decimal n c r hc]
  obtain ⟨d, tl, he, hd⟩ := decimal_cons n
  rw [he, List.cons_append]
  exact parseValue_digit f d _ hd

theorem parseValue_tenths (f t c : Nat) (r : List Nat) (hc : endsNumber c) :
    parseValue (f + 1) (decimal (t / 10) ++ 46 :: (48 + t % 10) :: c :: r) =
      some (Json.num (t : Int) (-1), c :: r) := by
  rw [← parseNumber_tenths t c r hc]
  obtain ⟨d, tl, he, hd⟩ := decimal_cons (t / 10)
  rw [he, List.cons_append]
  exact parseValue_digit f d _ hd

theorem parseValue_string (f : Nat) (s rest : List Nat) (hs : ∀ c ∈ s, jsonSafe c) :
    parseValue (f + 1) (34 :: (s ++ 34 :: rest)) = some (Json.str s, rest) := by
  rw [parseValue, if_pos rfl, parseStringBody_safe s rest hs]
  rfl

/-- One member followed by a comma: the rest of the members is read next. -/
theorem parseMembers_step (pv : List Nat → Option (Json × List Nat)) (n : Nat)
    (key t : List Nat) (v : Json) (rest : List Nat) (hkey : ∀ c ∈ key, jsonSafe c)
    (hws : skipWs t = t) (hpv : pv t = some (v, 44 :: rest)) :
    parseMembers pv (n + 1) (34 :: (key ++ 34 :: 58 :: t)) =
      (parseMembers pv n rest).map fun p => ((key, v) :: p.1, p.2) := by
  rw [parseMembers, skipWs_cons 34 _ (by decide)]
  simp only [parseStringBody_safe key _ hkey, skipWs_cons 58 _ (by decide), hws, hpv,
    skipWs_cons 44 _ (by decide)]

/-- The last member, followed by the closing brace. -/
theorem parseMembers_last (pv : List Nat → Option (Json × List Nat)) (n : Nat)
    (key t : List Nat) (v : Json) (rest : List Nat) (hkey : ∀ c ∈ key, jsonSafe c)
    (hws : skipWs t = t) (hpv : pv t = some (v, 125 :: rest)) :
    parseMembers pv (n + 1) (34 :: (key ++ 34 :: 58 :: t)) = some ([(key, v)], rest) := by
  rw [parseMembers, skipWs_cons 34 _ (by decide)]
  simp only [parseStringBody_safe key _ hkey, skipWs_cons 58 _ (by decide), hws, hpv,
    skipWs_cons 125 _ (by decide)]

/-- An object with at least one member, in terms of its members. -/
theorem parseValue_object (f : Nat) (r : List Nat) :
    parseValue (f + 1) (123 :: 34 :: r) =
      (parseMembers (parseValue f) (r.length + 1) (34 :: r)).map fun p =>
        (Json.obj p.1, p.2) := by
  rw [parseValue, if_neg (by decide), if_pos rfl, skipWs_cons 34 _ (by decide),
    if_neg (by simp)]
  rfl

/-! ### The time stamp `%Y-%m-%dT%H:%M:%SZ` -/

theorem isDigit_jsonSafe (c : Nat) (h : isDigit c = true) : jsonSafe c := by
  simp only [isDigit, Bool.and_eq_true, decide_eq_true_eq] at h
  unfold jsonSafe
  omega

theorem pad2_isDigit (n : Nat) : ∀ c ∈ pad2 n, isDigit c = true := by
  intro c hc
  unfold pad2 at hc
  split_ifs at hc
  · rcases List.mem_cons.mp hc with h | h
    · subst h; decide
    · exact decimal_isDigit n c h
  · exact decimal_isDigit n c hc

/-- The years that `gmtime` yields have at most ten digits. -/
theorem gmtime_year_lt (now : Nat) (h : now ≤ GMTIME_MAX) :
    (gmtime now).tm_year + 1900 < 10 ^ 10 := by
  unfold GMTIME_MAX at h
  have hy := gmtime_year_ge now
  simp only [gmtime] at hy ⊢
  obtain ⟨z, hz⟩ : ∃ z, z = now / 86400 + 719468 := ⟨_, rfl⟩
  rw [← hz] at hy ⊢
  have hz1 : z ≤ 784352990205 := by omega
  clear hz
  have he : z / 146097 ≤ 5368714 := by omega
  have hyoe : (z % 146097 - z % 146097 / 1460 + z % 146097 / 36524 -
      z % 146097 / 146096) / 365 ≤ 400 := by omega
  generalize ((z % 146097 - z % 146097 / 1460 + z % 146097 / 36524 -
      z % 146097 / 146096) / 365) = yoe at hy hyoe ⊢
  generalize z / 146097 = era at he hy ⊢
  have hc : (if (if (5 * (z % 146097 - (365 * yoe + yoe / 4 - yoe / 100)) + 2) / 153 < 10
      then (5 * (z % 146097 - (365 * yoe + yoe / 4 - yoe / 100)) + 2) / 153 + 3
      else (5 * (z % 146097 - (365 * yoe + yoe / 4 - yoe / 100)) + 2) / 153 - 9) ≤ 2
      then 1 else 0) ≤ 1 := by
    split_ifs <;> omega
  generalize (if (if (5 * (z % 146097 - (365 * yoe + yoe / 4 - yoe / 100)) + 2) / 153 < 10
      then (5 * (z % 146097 - (365 * yoe + yoe / 4 - yoe / 100)) + 2) / 153 + 3
      else (5 * (z % 146097 - (365 * yoe + yoe / 4 - yoe / 100)) + 2) / 153 - 9) ≤ 2
      then 1 else 0) = c at hy hc ⊢
  norm_num
  omega

/-- What `%Y-%m-%dT%H:%M:%SZ` prints. -/
theorem strftimeOut_iso (tm : Tm) :
    strftimeOut (cstr "%Y-%m-%dT%H:%M:%SZ") tm =
      decimal (tm.tm_year + 1900) ++ 45 :: (pad2 (tm.tm_mon + 1) ++ 45 :: (pad2 tm.tm_mday ++
        84 :: (pad2 tm.tm_hour ++ 58 :: (pad2 tm.tm_min ++ 58 :: (pad2 tm.tm_sec ++ [90]))))) :=
  rfl

theorem strftimeOut_iso_safe (tm : Tm) :
    ∀ c ∈ strftimeOut (cstr "%Y-%m-%dT%H:%M:%SZ") tm, jsonSafe c := by
  intro c hc
  rw [strftimeOut_iso] at hc
  simp only [List.mem_append, List.mem_cons, List.mem_singleton, List.not_mem_nil,
    or_false] at hc
  have hd := decimal_isDigit (tm.tm_year + 1900) c
  have h1 := pad2_isDigit (tm.tm_mon + 1) c
  have h2 := pad2_isDigit tm.tm_mday c
  have h3 := pad2_isDigit tm.tm_hour c
  have h4 := pad2_isDigit tm.tm_min c
  have h5 := pad2_isDigit tm.tm_sec c
  rcases hc with h | h | h | h | h | h | h | h | h | h | h | h
  · exact isDigit_jsonSafe c (hd h)
  · subst h; decide
  · exact isDigit_jsonSafe c (h1 h)
  · subst h; decide
  · exact isDigit_jsonSafe c (h2 h)
  · subst h; decide
  · exact isDigit_jsonSafe c (h3 h)
  · subst h; decide
  · exact isDigit_jsonSafe c (h4 h)
  · subst h; decide
  · exact isDigit_jsonSafe c (h5 h)
  · subst h; decide

/-- The time stamp fits `char timestamp[32]` for every time that gmtime converts. -/
theorem strftime_iso (now : Nat) (h : now ≤ GMTIME_MAX) :
    strftime 32 "%Y-%m-%dT%H:%M:%SZ" (gmtime now) =
      some (strftimeOut (cstr "%Y-%m-%dT%H:%M:%SZ") (gmtime now)) := by
  obtain ⟨hs, hmi, hh, _, hd, hmo⟩ := gmtime_fields now
  have hy := decimal_length_le 9 _ (gmtime_year_lt now h)
  have hlen : (strftimeOut (cstr "%Y-%m-%dT%H:%M:%SZ") (gmtime now)).length < 32 := by
    rw [strftimeOut_iso, pad2_two_digits _ (show (gmtime now).tm_mon + 1 < 100 by omega),
      pad2_two_digits _ (show (gmtime now).tm_mday < 100 by omega),
      pad2_two_digits _ (show (gmtime now).tm_hour < 100 by omega),
      pad2_two_digits _ (show (gmtime now).tm_min < 100 by omega),
      pad2_two_digits _ (show (gmtime now).tm_sec < 100 by omega)]
    simp only [List.length_append, List.length_cons, List.length_nil]
    omega
  unfold strftime
  exact if_pos hlen

/-! ### The telemetry payload -/

/-- The last time that gmtime converts is in the last year of `int tm_year`. -/
theorem gmtime_max_year :
    (gmtime GMTIME_MAX).tm_year = 2147483647 ∧
    (gmtime (GMTIME_MAX + 1)).tm_year = 2147483648 := by
  constructor <;> decide

set_option maxRecDepth 100000 in
/-- The complete output of the `snprintf` of line 165. -/
theorem vformat_telemetry (deviceId timestamp status : List Nat) (hr sys dia spo2 : Int)
    (temp resp : ℚ) :
    vformat (cstr telemetryFormat)
      [PrintfArg.str deviceId, PrintfArg.str timestamp, PrintfArg.int hr, PrintfArg.int sys,
        PrintfArg.int dia, PrintfArg.dbl temp, PrintfArg.int spo2, PrintfArg.dbl resp,
        PrintfArg.str status] =
    telemetryTextOf deviceId timestamp (fmtInt hr) (fmtInt sys) (fmtInt dia) (fmtFixed1 temp)
      (fmtInt spo2) (fmtFixed1 resp) status :=
  rfl

theorem numberText_decimal (n : Nat) : NumberText (decimal n) (Json.num (n : Int) 0) :=
  fun f c r hc => ⟨skipWs_decimal n _, parseValue_decimal f n c r hc⟩

theorem numberText_tenths (t : Nat) :
    NumberText (fmtFixed1 ((t : ℚ) / 10)) (Json.num (t : Int) (-1)) := by
  intro f c r hc
  have he : fmtFixed1 ((t : ℚ) / 10) ++ c :: r =
      decimal (t / 10) ++ 46 :: (48 + t % 10) :: c :: r := by
    rw [fmtFixed1_tenths]
    simp
  rw [he]
  exact ⟨skipWs_decimal _ _, parseValue_tenths f t c r hc⟩

/-- The nine members of the telemetry object are read in order. -/
theorem parseMembers_telemetry (f n : Nat) (hn : 9 ≤ n)
    (deviceId timestamp hr sys dia temp spo2 resp status : List Nat)
    (jhr jsys jdia jtemp jspo2 jresp : Json)
    (hdev : ∀ c ∈ deviceId, jsonSafe c) (htime : ∀ c ∈ timestamp, jsonSafe c)
    (hstat : ∀ c ∈ status, jsonSafe c)
    (hhr : NumberText hr jhr) (hsys : NumberText sys jsys) (hdia : NumberText dia jdia)
    (htemp : NumberText temp jtemp) (hspo2 : NumberText spo2 jspo2)
    (hresp : NumberText resp jresp) :
    parseMembers (parseValue (f + 1)) n
      (34 :: (cstr "deviceId" ++ 34 :: 58 :: 34 :: (deviceId ++ 34 :: 44 ::
      34 :: (cstr "timestamp" ++ 34 :: 58 :: 34 :: (timestamp ++ 34 :: 44 ::
      34 :: (cstr "heartRate" ++ 34 :: 58 :: (hr ++ 44 ::
      34 :: (cstr "bloodPressureSystolic" ++ 34 :: 58 :: (sys ++ 44 ::
      34 :: (cstr "bloodPressureDiastolic" ++ 34 :: 58 :: (dia ++ 44 ::
      34 :: (cstr "bodyTemperature" ++ 34 :: 58 :: (temp ++ 44 ::
      34 :: (cstr "spo2" ++ 34 :: 58 :: (spo2 ++ 44 ::
      34 :: (cstr "respiratoryRate" ++ 34 :: 58 :: (resp ++ 44 ::
      34 :: (cstr "patientStatus" ++ 34 :: 58 :: 34 :: (status ++
        34 :: [125]))))))))))))))))))) =
    some ([(cstr "deviceId", Json.str deviceId), (cstr "timestamp", Json.str timestamp),
      (cstr "heartRate", jhr), (cstr "bloodPressureSystolic", jsys),
      (cstr "bloodPressureDiastolic", jdia), (cstr "bodyTemperature", jtemp),
      (cstr "spo2", jspo2), (cstr "respiratoryRate", jresp),
      (cstr "patientStatus", Json.str status)], []) := by
  obtain ⟨m, rfl⟩ : ∃ m, n = m + 9 := ⟨n - 9, by omega⟩
  have e44 : endsNumber 44 := by decide
  rw [parseMembers_step (parseValue (f + 1)) _ (cstr "deviceId") _ (Json.str deviceId) _
    (by decide) (skipWs_cons 34 _ (by decide)) (parseValue_string f deviceId _ hdev)]
  rw [parseMembers_step (parseValue (f + 1)) _ (cstr "timestamp") _ (Json.str timestamp) _
    (by decide) (skipWs_cons 34 _ (by decide)) (parseValue_string f timestamp _ htime)]
  rw [parseMembers_step (parseValue (f + 1)) _ (cstr "heartRate") _ jhr _
    (by decide) (hhr f 44 _ e44).1 (hhr f 44 _ e44).2]
  rw [parseMembers_step (parseValue (f + 1)) _ (cstr "bloodPressureSystolic") _ jsys _
    (by decide) (hsys f 44 _ e44).1 (hsys f 44 _ e44).2]
  rw [parseMembers_step (parseValue (f + 1)) _ (cstr "bloodPressureDiastolic") _ jdia _
    (by decide) (hdia f 44 _ e44).1 (hdia f 44 _ e44).2]
  rw [parseMembers_step (parseValue (f + 1)) _ (cstr "bodyTemperature") _ jtemp _
    (by decide) (htemp f 44 _ e44).1 (htemp f 44 _ e44).2]
  rw [parseMembers_step (parseValue (f + 1)) _ (cstr "spo2") _ jspo2 _
    (by decide) (hspo2 f 44 _ e44).1 (hspo2 f 44 _ e44).2]
  rw [parseMembers_step (parseValue (f + 1)) _ (cstr "respiratoryRate") _ jresp _
    (by decide) (hresp f 44 _ e44).1 (hresp f 44 _ e44).2]
  rw [parseMembers_last (parseValue (f + 1)) _ (cstr "patientStatus") _ (Json.str status) []
    (by decide) (skipWs_cons 34 _ (by decide)) (parseValue_string f status _ hstat)]
  rfl

theorem numberText_fmtInt (i : Int) (h : 0 ≤ i) : NumberText (fmtInt i) (Json.num i 0) := by
  obtain ⟨n, rfl⟩ := Int.eq_ofNat_of_zero_le h
  rw [fmtInt_natCast]
  exact numberText_decimal n

theorem numberText_fmtFixed1 (q : ℚ) (t : Nat) (h : q = (t : ℚ) / 10) :
    NumberText (fmtFixed1 q) (Json.num (t : Int) (-1)) := by
  rw [h]
  exact numberText_tenths t

/-- The telemetry object is read as its nine members, in order. -/
theorem parseJsonText_telemetryText
    (deviceId timestamp hr sys dia temp spo2 resp status : List Nat)
    (jhr jsys jdia jtemp jspo2 jresp : Json)
    (hdev : ∀ c ∈ deviceId, jsonSafe c) (htime : ∀ c ∈ timestamp, jsonSafe c)
    (hstat : ∀ c ∈ status, jsonSafe c)
    (hhr : NumberText hr jhr) (hsys : NumberText sys jsys) (hdia : NumberText dia jdia)
    (htemp : NumberText temp jtemp) (hspo2 : NumberText spo2 jspo2)
    (hresp : NumberText resp jresp) :
    parseJsonText (telemetryTextOf deviceId timestamp hr sys dia temp spo2 resp status) =
      some (Json.obj
        [(cstr "deviceId", Json.str deviceId), (cstr "timestamp", Json.str timestamp),
          (cstr "heartRate", jhr), (cstr "bloodPressureSystolic", jsys),
          (cstr "bloodPressureDiastolic", jdia), (cstr "bodyTemperature", jtemp),
          (cstr "spo2", jspo2), (cstr "respiratoryRate", jresp),
          (cstr "patientStatus", Json.str status)]) := by
  have h8 : (cstr "deviceId").length = 8 := rfl
  unfold parseJsonText telemetryTextOf
  rw [skipWs_cons 123 _ (by decide)]
  simp only [List.length_cons]
  rw [parseValue_object, parseMembers_telemetry _ _ (by rw [List.length_append]; omega)
    deviceId timestamp hr sys dia temp spo2 resp status jhr jsys jdia jtemp jspo2 jresp
    hdev htime hstat hhr hsys hdia htemp hspo2 hresp]
  simp [skipWs]

/-! ### Well-formed UTF-8 -/

theorem validUtf8_nil : validUtf8 [] = true := rfl

theorem validUtf8_append (a b : List Nat) (ha : validUtf8 a = true) (hb : validUtf8 b = true) :
    validUtf8 (a ++ b) = true := by
  simp only [validUtf8, decide_eq_true_eq] at ha hb ⊢
  rw [List.foldl_append, ha, hb]

theorem validUtf8_cons_ascii (c : Nat) (l : List Nat) (hc : c < 128)
    (hl : validUtf8 l = true) : validUtf8 (c :: l) = true := by
  simp only [validUtf8, decide_eq_true_eq] at hl ⊢
  have hstep : utf8Step Utf8State.start c = Utf8State.start := by
    simp only [utf8Step]
    rw [if_pos hc]
  rw [List.foldl_cons, hstep, hl]

/-- A text of ASCII bytes is well-formed UTF-8. -/
theorem validUtf8_ascii (l : List Nat) (h : ∀ c ∈ l, c < 128) : validUtf8 l = true := by
  induction l with
  | nil => rfl
  | cons c l ih =>
    exact validUtf8_cons_ascii c l (h c (by simp)) (ih fun x hx => h x (by simp [hx]))

theorem isDigit_ascii (c : Nat) (h : isDigit c = true) : c < 128 := by
  simp only [isDigit, Bool.and_eq_true, decide_eq_true_eq] at h
  omega

theorem validUtf8_decimal (n : Nat) : validUtf8 (decimal n) = true :=
  validUtf8_ascii _ fun c hc => isDigit_ascii c (decimal_isDigit n c hc)

theorem validUtf8_tenths (t : Nat) :
    validUtf8 (decimal (t / 10) ++ [46, 48 + t % 10]) = true :=
  validUtf8_append _ _ (validUtf8_decimal _)
    (validUtf8_cons_ascii _ _ (by decide)
      (validUtf8_cons_ascii _ _ (by omega) validUtf8_nil))

theorem strftimeOut_iso_validUtf8 (tm : Tm) :
    validUtf8 (strftimeOut (cstr "%Y-%m-%dT%H:%M:%SZ") tm) = true := by
  have hp : ∀ n, validUtf8 (pad2 n) = true := fun n =>
    validUtf8_ascii _ fun c hc => isDigit_ascii c (pad2_isDigit n c hc)
  rw [strftimeOut_iso]
  exact validUtf8_append _ _ (validUtf8_decimal _) (validUtf8_cons_ascii _ _ (by decide)
    (validUtf8_append _ _ (hp _) (validUtf8_cons_ascii _ _ (by decide)
    (validUtf8_append _ _ (hp _) (validUtf8_cons_ascii _ _ (by decide)
    (validUtf8_append _ _ (hp _) (validUtf8_cons_ascii _ _ (by decide)
    (validUtf8_append _ _ (hp _) (validUtf8_cons_ascii _ _ (by decide)
    (validUtf8_append _ _ (hp _) (validUtf8_cons_ascii _ _ (by decide)
      validUtf8_nil)))))))))))

/-- A quoted key and its colon, before a well-formed text. -/
theorem validUtf8_key (k rest : List Nat) (hk : validUtf8 k = true)
    (hr : validUtf8 rest = true) : validUtf8 (34 :: (k ++ 34 :: 58 :: rest)) = true :=
  validUtf8_cons_ascii _ _ (by decide) (validUtf8_append _ _ hk
    (validUtf8_cons_ascii _ _ (by decide) (validUtf8_cons_ascii _ _ (by decide) hr)))

/-- A quoted string before a well-formed text. -/
theorem validUtf8_quoted (v rest : List Nat) (hv : validUtf8 v = true)
    (hr : validUtf8 rest = true) : validUtf8 (34 :: (v ++ 34 :: rest)) = true :=
  validUtf8_cons_ascii _ _ (by decide) (validUtf8_append _ _ hv
    (validUtf8_cons_ascii _ _ (by decide) hr))

/-- The telemetry object is well-formed UTF-8 when its nine value texts are. -/
theorem validUtf8_telemetryTextOf
    (deviceId timestamp hr sys dia temp spo2 resp status : List Nat)
    (h1 : validUtf8 deviceId = true) (h2 : validUtf8 timestamp = true)
    (h3 : validUtf8 hr = true) (h4 : validUtf8 sys = true) (h5 : validUtf8 dia = true)
    (h6 : validUtf8 temp = true) (h7 : validUtf8 spo2 = true) (h8 : validUtf8 resp = true)
    (h9 : validUtf8 status = true) :
    validUtf8 (telemetryTextOf deviceId timestamp hr sys dia temp spo2 resp status) =
      true := by
  unfold telemetryTextOf
  exact validUtf8_cons_ascii _ _ (by decide)
    (validUtf8_key _ _ (by decide) (validUtf8_quoted _ _ h1 (validUtf8_cons_ascii _ _ (by decide)
    (validUtf8_key _ _ (by decide) (validUtf8_quoted _ _ h2 (validUtf8_cons_ascii _ _ (by decide)
    (validUtf8_key _ _ (by decide) (validUtf8_append _ _ h3 (validUtf8_cons_ascii _ _ (by decide)
    (validUtf8_key _ _ (by decide) (validUtf8_append _ _ h4 (validUtf8_cons_ascii _ _ (by decide)
    (validUtf8_key _ _ (by decide) (validUtf8_append _ _ h5 (validUtf8_cons_ascii _ _ (by decide)
    (validUtf8_key _ _ (by decide) (validUtf8_append _ _ h6 (validUtf8_cons_ascii _ _ (by decide)
    (validUtf8_key _ _ (by decide) (validUtf8_append _ _ h7 (validUtf8_cons_ascii _ _ (by decide)
    (validUtf8_key _ _ (by decide) (validUtf8_append _ _ h8 (validUtf8_cons_ascii _ _ (by decide)
    (validUtf8_key _ _ (by decide) (validUtf8_quoted _ _ h9
      (validUtf8_cons_ascii _ _ (by decide) validUtf8_nil)))))))))))))))))))))))))))

/-- The telemetry object decodes to its nine members, in order. -/
theorem decodeJson_telemetryText
    (deviceId timestamp hr sys dia temp spo2 resp status : List Nat)
    (jhr jsys jdia jtemp jspo2 jresp : Json)
    (hvalid : validUtf8 (telemetryTextOf deviceId timestamp hr sys dia temp spo2 resp
      status) = true)
    (hdev : ∀ c ∈ deviceId, jsonSafe c) (htime : ∀ c ∈ timestamp, jsonSafe c)
    (hstat : ∀ c ∈ status, jsonSafe c)
    (hhr : NumberText hr jhr) (hsys : NumberText sys jsys) (hdia : NumberText dia jdia)
    (htemp : NumberText temp jtemp) (hspo2 : NumberText spo2 jspo2)
    (hresp : NumberText resp jresp) :
    decodeJson (telemetryTextOf deviceId timestamp hr sys dia temp spo2 resp status) =
      some (Json.obj
        [(cstr "deviceId", Json.str deviceId), (cstr "timestamp", Json.str timestamp),
          (cstr "heartRate", jhr), (cstr "bloodPressureSystolic", jsys),
          (cstr "bloodPressureDiastolic", jdia), (cstr "bodyTemperature", jtemp),
          (cstr "spo2", jspo2), (cstr "respiratoryRate", jresp),
          (cstr "patientStatus", Json.str status)]) := by
  unfold decodeJson
  rw [if_pos hvalid]
  exact parseJsonText_telemetryText deviceId timestamp hr sys dia temp spo2 resp status
    jhr jsys jdia jtemp jspo2 jresp hdev htime hstat hhr hsys hdia htemp hspo2 hresp

theorem patientStatus_safe (heartRate : Int) (bodyTemperature : ℚ) (spo2 : Int) :
    ∀ c ∈ cstr (patientStatus heartRate bodyTemperature spo2), jsonSafe c := by
  unfold patientStatus
  simp only
  split_ifs <;> decide

theorem numValue_tenths (n : Nat) : numValue ((n : Nat) : Int) (-1) = (n : ℚ) / 10 := by
  simp only [numValue, Int.cast_natCast]
  norm_num
  ring

/-- What the classification gives on drawn vitals. -/
theorem patientStatus_drawVitals (r1 r2 r3 r4 r5 r6 : Nat) :
    patientStatus (drawVitals r1 r2 r3 r4 r5 r6).heartRate
      (drawVitals r1 r2 r3 r4 r5 r6).bodyTemperature (drawVitals r1 r2 r3 r4 r5 r6).spo2 =
    if 16 ≤ r4 % 20 then "warning" else "normal" := by
  have h1 : r1 % 40 < 40 := Nat.mod_lt _ (by norm_num)
  have h4 : r4 % 20 < 20 := Nat.mod_lt _ (by norm_num)
  have h5 : r5 % 6 < 6 := Nat.mod_lt _ (by norm_num)
  have hhr : ¬ (60 + ((r1 % 40 : Nat) : Int) > 100) := by omega
  have hhr2 : ¬ (60 + ((r1 % 40 : Nat) : Int) > 120) := by omega
  have hs : ¬ (95 + ((r5 % 6 : Nat) : Int) < 95) := by omega
  have hs2 : ¬ (95 + ((r5 % 6 : Nat) : Int) < 90) := by omega
  have h4q : ((r4 % 20 : Nat) : ℚ) ≤ 19 := by
    have : r4 % 20 ≤ 19 := by omega
    exact_mod_cast this
  have ht2 : ¬ ((36 : ℚ) + ((r4 % 20 : Nat) : ℚ) / 10 > 38.5) := by
    norm_num
    linarith
  have ht : ((36 : ℚ) + ((r4 % 20 : Nat) : ℚ) / 10 > 37.5) ↔ 16 ≤ r4 % 20 := by
    constructor
    · intro h
      have h' : (15 : ℚ) < ((r4 % 20 : Nat) : ℚ) := by
        norm_num at h
        linarith
      have : 15 < r4 % 20 := by exact_mod_cast h'
      omega
    · intro h
      have h' : (16 : ℚ) ≤ ((r4 % 20 : Nat) : ℚ) := by exact_mod_cast h
      norm_num
      linarith
  simp only [patientStatus, drawVitals, hhr, hhr2, hs, hs2, ht, ht2, false_or, or_false,
    if_false]

/-- The text that `generateMedicalTelemetry` stores, in closed form. -/
theorem generateMedicalTelemetry_eq (bufferSize : Nat) (deviceId : List Nat)
    (now r1 r2 r3 r4 r5 r6 : Nat) (hnow : now ≤ GMTIME_MAX) :
    generateMedicalTelemetry bufferSize deviceId now r1 r2 r3 r4 r5 r6 =
      some ((telemetryTextOf deviceId (strftimeOut (cstr "%Y-%m-%dT%H:%M:%SZ") (gmtime now))
        (decimal (60 + r1 % 40)) (decimal (110 + r2 % 30)) (decimal (70 + r3 % 20))
        (decimal ((360 + r4 % 20) / 10) ++ [46, 48 + (360 + r4 % 20) % 10])
        (decimal (95 + r5 % 6))
        (decimal ((120 + r6 % 80) / 10) ++ [46, 48 + (120 + r6 % 80) % 10])
        (cstr (if 16 ≤ r4 % 20 then "warning" else "normal"))).take (bufferSize - 1)) ∧
    telemetryLength deviceId now r1 r2 r3 r4 r5 r6 =
      (telemetryTextOf deviceId (strftimeOut (cstr "%Y-%m-%dT%H:%M:%SZ") (gmtime now))
        (decimal (60 + r1 % 40)) (decimal (110 + r2 % 30)) (decimal (70 + r3 % 20))
        (decimal ((360 + r4 % 20) / 10) ++ [46, 48 + (360 + r4 % 20) % 10])
        (decimal (95 + r5 % 6))
        (decimal ((120 + r6 % 80) / 10) ++ [46, 48 + (120 + r6 % 80) % 10])
        (cstr (if 16 ≤ r4 % 20 then "warning" else "normal"))).length := by
  have hts := strftime_iso now hnow
  have h1 : fmtInt (drawVitals r1 r2 r3 r4 r5 r6).heartRate = decimal (60 + r1 % 40) := by
    rw [← fmtInt_natCast]; simp [drawVitals]
  have h2 : fmtInt (drawVitals r1 r2 r3 r4 r5 r6).bloodPressureSystolic =
      decimal (110 + r2 % 30) := by
    rw [← fmtInt_natCast]; simp [drawVitals]
  have h3 : fmtInt (drawVitals r1 r2 r3 r4 r5 r6).bloodPressureDiastolic =
      decimal (70 + r3 % 20) := by
    rw [← fmtInt_natCast]; simp [drawVitals]
  have h5 : fmtInt (drawVitals r1 r2 r3 r4 r5 r6).spo2 = decimal (95 + r5 % 6) := by
    rw [← fmtInt_natCast]; simp [drawVitals]
  have h4 : fmtFixed1 (drawVitals r1 r2 r3 r4 r5 r6).bodyTemperature =
      decimal ((360 + r4 % 20) / 10) ++ [46, 48 + (360 + r4 % 20) % 10] := by
    rw [← fmtFixed1_tenths]
    congr 1
    simp only [drawVitals]
    push_cast
    ring
  have h6 : fmtFixed1 (drawVitals r1 r2 r3 r4 r5 r6).respiratoryRate =
      decimal ((120 + r6 % 80) / 10) ++ [46, 48 + (120 + r6 % 80) % 10] := by
    rw [← fmtFixed1_tenths]
    congr 1
    simp only [drawVitals]
    push_cast
    ring
  have hv := vformat_telemetry deviceId (strftimeOut (cstr "%Y-%m-%dT%H:%M:%SZ") (gmtime now))
    (cstr (if 16 ≤ r4 % 20 then "warning" else "normal"))
    (drawVitals r1 r2 r3 r4 r5 r6).heartRate
    (drawVitals r1 r2 r3 r4 r5 r6).bloodPressureSystolic
    (drawVitals r1 r2 r3 r4 r5 r6).bloodPressureDiastolic
    (drawVitals r1 r2 r3 r4 r5 r6).spo2
    (drawVitals r1 r2 r3 r4 r5 r6).bodyTemperature
    (drawVitals r1 r2 r3 r4 r5 r6).respiratoryRate
  rw [h1, h2, h3, h4, h5, h6] at hv
  unfold generateMedicalTelemetry telemetryLength
  simp only [hts, Option.map_some', Option.getD_some, patientStatus_drawVitals]
  unfold snprintf telemetryArgs
  rw [hv]
  exact ⟨rfl, rfl⟩

set_option maxRecDepth 100000 in
/-- C9 (as stated, refuted): with the deviceId `a"b` the payload is not a JSON
text at all, and with the deviceId `a\nb` (a backslash and the letter n) the
payload decodes to an object whose deviceId is `a`, line feed, `b`: not the
deviceId passed in. -/
theorem telemetry_deviceId_not_escaped :
    (generateMedicalTelemetry 512 (cstr "a\"b") 1704164645 1 2 3 4 5 6 =
        some (cstr ("\x7b\"deviceId\":\"a\"b\",\"timestamp\":\"2024-01-02T03:04:05Z\"," ++
          "\"heartRate\":61,\"bloodPressureSystolic\":112,\"bloodPressureDiastolic\":73," ++
          "\"bodyTemperature\":36.4,\"spo2\":100,\"respiratoryRate\":12.6," ++
          "\"patientStatus\":\"normal\"\x7d")) ∧
      ((generateMedicalTelemetry 512 (cstr "a\"b") 1704164645 1 2 3 4 5 6).bind
        decodeJson).isNone = true) ∧
    (cstr "a\\nb" = [97, 92, 110, 98] ∧
      (generateMedicalTelemetry 512 [97, 92, 110, 98] 1704164645 1 2 3 4 5 6).bind decodeJson =
        some (Json.obj
          [(cstr "deviceId", Json.str [97, 10, 98]),
            (cstr "timestamp", Json.str (cstr "2024-01-02T03:04:05Z")),
            (cstr "heartRate", Json.num 61 0), (cstr "bloodPressureSystolic", Json.num 112 0),
            (cstr "bloodPressureDiastolic", Json.num 73 0),
            (cstr "bodyTemperature", Json.num 364 (-1)), (cstr "spo2", Json.num 100 0),
            (cstr "respiratoryRate", Json.num 126 (-1)),
            (cstr "patientStatus", Json.str (cstr "normal"))])) := by
  rw [(generateMedicalTelemetry_eq 512 (cstr "a\"b") 1704164645 1 2 3 4 5 6 (by decide)).1,
    (generateMedicalTelemetry_eq 512 [97, 92, 110, 98] 1704164645 1 2 3 4 5 6 (by decide)).1]
  refine ⟨⟨by decide, by decide⟩, by decide, by rfl⟩

set_option maxRecDepth 100000 in
/-- A deviceId that is not well-formed UTF-8 (the single byte 255) gives a payload
that is not a JSON text, although none of its bytes needs an escape. -/
theorem telemetry_invalid_utf8_rejected :
    validUtf8 [255] = false ∧ (∀ c ∈ [255], jsonSafe c) ∧
    ((generateMedicalTelemetry 512 [255] 1704164645 1 2 3 4 5 6).bind decodeJson).isNone =
      true := by
  rw [(generateMedicalTelemetry_eq 512 [255] 1704164645 1 2 3 4 5 6 (by decide)).1]
  refine ⟨by decide, by decide, by decide⟩

/-- C9 (amended): for every deviceId that is well-formed UTF-8 and whose bytes are
all safe in a JSON string (no control byte, no quote, no backslash), every time
that gmtime converts (at most `GMTIME_MAX`) and every six draws, when the payload
fits the 512-byte buffer it decodes as JSON to an
object with exactly the nine keys deviceId, timestamp, heartRate,
bloodPressureSystolic, bloodPressureDiastolic, bodyTemperature, spo2,
respiratoryRate, patientStatus, in that order, whose values are the deviceId passed
in, the time stamp, the drawn vitals and the status. -/
theorem telemetry_round_trip (deviceId : List Nat) (now r1 r2 r3 r4 r5 r6 : Nat)
    (hutf8 : validUtf8 deviceId = true) (hsafe : ∀ c ∈ deviceId, jsonSafe c)
    (hnow : now ≤ GMTIME_MAX)
    (hfit : telemetryLength deviceId now r1 r2 r3 r4 r5 r6 < 512) :
    ∃ timestamp payload,
      strftime 32 "%Y-%m-%dT%H:%M:%SZ" (gmtime now) = some timestamp ∧
      generateMedicalTelemetry 512 deviceId now r1 r2 r3 r4 r5 r6 = some payload ∧
      decodeJson payload = some (Json.obj
        [(cstr "deviceId", Json.str deviceId),
          (cstr "timestamp", Json.str timestamp),
          (cstr "heartRate", Json.num (drawVitals r1 r2 r3 r4 r5 r6).heartRate 0),
          (cstr "bloodPressureSystolic",
            Json.num (drawVitals r1 r2 r3 r4 r5 r6).bloodPressureSystolic 0),
          (cstr "bloodPressureDiastolic",
            Json.num (drawVitals r1 r2 r3 r4 r5 r6).bloodPressureDiastolic 0),
          (cstr "bodyTemperature", Json.num ((360 + r4 % 20 : Nat) : Int) (-1)),
          (cstr "spo2", Json.num (drawVitals r1 r2 r3 r4 r5 r6).spo2 0),
          (cstr "respiratoryRate", Json.num ((120 + r6 % 80 : Nat) : Int) (-1)),
          (cstr "patientStatus", Json.str (cstr (patientStatus
            (drawVitals r1 r2 r3 r4 r5 r6).heartRate
            (drawVitals r1 r2 r3 r4 r5 r6).bodyTemperature
            (drawVitals r1 r2 r3 r4 r5 r6).spo2)))]) ∧
      numValue ((360 + r4 % 20 : Nat) : Int) (-1) =
        (drawVitals r1 r2 r3 r4 r5 r6).bodyTemperature ∧
      numValue ((120 + r6 % 80 : Nat) : Int) (-1) =
        (drawVitals r1 r2 r3 r4 r5 r6).respiratoryRate := by
  obtain ⟨hgen, hlen⟩ := generateMedicalTelemetry_eq 512 deviceId now r1 r2 r3 r4 r5 r6 hnow
  rw [hlen] at hfit
  rw [List.take_of_length_le (by omega)] at hgen
  have e1 : (drawVitals r1 r2 r3 r4 r5 r6).heartRate = ((60 + r1 % 40 : Nat) : Int) := by
    simp [drawVitals]
  have e2 : (drawVitals r1 r2 r3 r4 r5 r6).bloodPressureSystolic =
      ((110 + r2 % 30 : Nat) : Int) := by
    simp [drawVitals]
  have e3 : (drawVitals r1 r2 r3 r4 r5 r6).bloodPressureDiastolic =
      ((70 + r3 % 20 : Nat) : Int) := by
    simp [drawVitals]
  have e5 : (drawVitals r1 r2 r3 r4 r5 r6).spo2 = ((95 + r5 % 6 : Nat) : Int) := by
    simp [drawVitals]
  refine ⟨_, _, strftime_iso now hnow, hgen, ?_, ?_, ?_⟩
  · rw [patientStatus_drawVitals, e1, e2, e3, e5]
    refine decodeJson_telemetryText _ _ _ _ _ _ _ _ _ _ _ _ _ _ _
      (validUtf8_telemetryTextOf _ _ _ _ _ _ _ _ _ hutf8 (strftimeOut_iso_validUtf8 _)
        (validUtf8_decimal _) (validUtf8_decimal _) (validUtf8_decimal _)
        (validUtf8_tenths _) (validUtf8_decimal _) (validUtf8_tenths _)
        (by split_ifs <;> decide))
      hsafe (strftimeOut_iso_safe _) (by split_ifs <;> decide)
      (numberText_decimal _) (numberText_decimal _) (numberText_decimal _) ?_
      (numberText_decimal _) ?_
    · rw [← fmtFixed1_tenths]
      exact numberText_tenths _
    · rw [← fmtFixed1_tenths]
      exact numberText_tenths _
  · rw [numValue_tenths]
    simp only [drawVitals]
    push_cast
    ring
  · rw [numValue_tenths]
    simp only [drawVitals]
    push_cast
    ring

set_option maxRecDepth 100000 in
theorem telemetry_round_trip_witness :
    ∃ timestamp payload,
      strftime 32 "%Y-%m-%dT%H:%M:%SZ" (gmtime 1704164645) = some timestamp ∧
      generateMedicalTelemetry 512 (cstr "icu-device01") 1704164645 1 2 3 4 5 6 =
        some payload ∧
      decodeJson payload = some (Json.obj
        [(cstr "deviceId", Json.str (cstr "icu-device01")),
          (cstr "timestamp", Json.str timestamp),
          (cstr "heartRate", Json.num (drawVitals 1 2 3 4 5 6).heartRate 0),
          (cstr "bloodPressureSystolic",
            Json.num (drawVitals 1 2 3 4 5 6).bloodPressureSystolic 0),
          (cstr "bloodPressureDiastolic",
            Json.num (drawVitals 1 2 3 4 5 6).bloodPressureDiastolic 0),
          (cstr "bodyTemperature", Json.num ((360 + 4 % 20 : Nat) : Int) (-1)),
          (cstr "spo2", Json.num (drawVitals 1 2 3 4 5 6).spo2 0),
          (cstr "respiratoryRate", Json.num ((120 + 6 % 80 : Nat) : Int) (-1)),
          (cstr "patientStatus", Json.str (cstr (patientStatus
            (drawVitals 1 2 3 4 5 6).heartRate
            (drawVitals 1 2 3 4 5 6).bodyTemperature
            (drawVitals 1 2 3 4 5 6).spo2)))]) ∧
      numValue ((360 + 4 % 20 : Nat) : Int) (-1) = (drawVitals 1 2 3 4 5 6).bodyTemperature ∧
      numValue ((120 + 6 % 80 : Nat) : Int) (-1) = (drawVitals 1 2 3 4 5 6).respiratoryRate :=
  telemetry_round_trip (cstr "icu-device01") 1704164645 1 2 3 4 5 6 (by decide) (by decide)
    (by decide)
    (by
      rw [(generateMedicalTelemetry_eq 512 (cstr "icu-device01") 1704164645 1 2 3 4 5 6
        (by decide)).2]
      decide)

/-! ### The command payload -/

set_option maxRecDepth 100000 in
/-- The complete output of the `snprintf` of line 50. -/
theorem vformat_command (messageId timestamp : List Nat) :
    vformat (cstr commandFormat) [PrintfArg.str messageId, PrintfArg.str timestamp] =
      commandTextOf messageId timestamp :=
  rfl

set_option maxRecDepth 100000 in
/-- The five constant members of the command object. -/
theorem parseMembers_command_tail (f m : Nat) :
    parseMembers (parseValue (f + 2)) (m + 5)
      (cstr ("\"command\":\"request_diagnostic_data\"," ++
        "\"description\":\"診断データの要求\"," ++
        "\"parameters\":\x7b" ++
            "\"include_logs\":true," ++
            "\"time_range_hours\":24" ++
        "\x7d," ++
        "\"sender\":\"management-app-c\"," ++
        "\"priority\":\"normal\"" ++
        "\x7d")) =
    some ([(cstr "command", Json.str (cstr "request_diagnostic_data")),
        (cstr "description", Json.str (cstr "診断データの要求")),
        (cstr "parameters", Json.obj [(cstr "include_logs", Json.bool true),
          (cstr "time_range_hours", Json.num 24 0)]),
        (cstr "sender", Json.str (cstr "management-app-c")),
        (cstr "priority", Json.str (cstr "normal"))], []) :=
  rfl

set_option maxRecDepth 100000 in
theorem commandTextOf_length (messageId timestamp : List Nat) :
    (commandTextOf messageId timestamp).length = messageId.length + timestamp.length + 213 := by
  have k1 : (cstr "messageId").length = 9 := rfl
  have k2 : (cstr "timestamp").length = 9 := rfl
  have k3 : (cstr ("\"command\":\"request_diagnostic_data\"," ++
      "\"description\":\"診断データの要求\"," ++
      "\"parameters\":\x7b" ++
          "\"include_logs\":true," ++
          "\"time_range_hours\":24" ++
      "\x7d," ++
      "\"sender\":\"management-app-c\"," ++
      "\"priority\":\"normal\"" ++
      "\x7d")).length = 182 := rfl
  unfold commandTextOf
  simp only [List.length_cons, List.length_append, k1, k2, k3]
  omega

/-- The command object is read as its seven members, in order. -/
theorem parseJsonText_commandText (messageId timestamp : List Nat)
    (hid : ∀ c ∈ messageId, jsonSafe c) (htime : ∀ c ∈ timestamp, jsonSafe c) :
    parseJsonText (commandTextOf messageId timestamp) =
      some (Json.obj
        [(cstr "messageId", Json.str messageId), (cstr "timestamp", Json.str timestamp),
          (cstr "command", Json.str (cstr "request_diagnostic_data")),
          (cstr "description", Json.str (cstr "診断データの要求")),
          (cstr "parameters", Json.obj [(cstr "include_logs", Json.bool true),
            (cstr "time_range_hours", Json.num 24 0)]),
          (cstr "sender", Json.str (cstr "management-app-c")),
          (cstr "priority", Json.str (cstr "normal"))]) := by
  have hl := commandTextOf_length messageId timestamp
  unfold parseJsonText
  unfold commandTextOf at hl ⊢
  rw [skipWs_cons 123 _ (by decide)]
  simp only [List.length_cons] at hl ⊢
  rw [parseValue_object]
  obtain ⟨m, hm⟩ : ∃ m, (cstr "messageId" ++ 34 :: 58 :: 34 :: (messageId ++ 34 :: 44 ::
      34 :: (cstr "timestamp" ++ 34 :: 58 :: 34 :: (timestamp ++ 34 :: 44 ::
      cstr ("\"command\":\"request_diagnostic_data\"," ++
        "\"description\":\"診断データの要求\"," ++
        "\"parameters\":\x7b" ++
            "\"include_logs\":true," ++
            "\"time_range_hours\":24" ++
        "\x7d," ++
        "\"sender\":\"management-app-c\"," ++
        "\"priority\":\"normal\"" ++
        "\x7d"))))).length = m + 6 :=
    ⟨messageId.length + timestamp.length + 205, by omega⟩
  rw [hm]
  rw [parseMembers_step (parseValue (m + 6 + 1)) _ (cstr "messageId") _ (Json.str messageId) _
    (by decide) (skipWs_cons 34 _ (by decide)) (parseValue_string (m + 6) messageId _ hid)]
  rw [parseMembers_step (parseValue (m + 6 + 1)) _ (cstr "timestamp") _ (Json.str timestamp) _
    (by decide) (skipWs_cons 34 _ (by decide)) (parseValue_string (m + 6) timestamp _ htime)]
  rw [parseMembers_command_tail (m + 5) m]
  simp [skipWs]

set_option maxRecDepth 100000 in
/-- The command object is well-formed UTF-8 when its identifier and time stamp
are. -/
theorem validUtf8_commandTextOf (messageId timestamp : List Nat)
    (h1 : validUtf8 messageId = true) (h2 : validUtf8 timestamp = true) :
    validUtf8 (commandTextOf messageId timestamp) = true := by
  unfold commandTextOf
  exact validUtf8_cons_ascii _ _ (by decide)
    (validUtf8_key _ _ (by decide) (validUtf8_quoted _ _ h1 (validUtf8_cons_ascii _ _ (by decide)
    (validUtf8_key _ _ (by decide) (validUtf8_quoted _ _ h2 (validUtf8_cons_ascii _ _ (by decide)
      (by decide)))))))

/-- The command object decodes to its seven members, in order. -/
theorem decodeJson_commandText (messageId timestamp : List Nat)
    (hvalid : validUtf8 (commandTextOf messageId timestamp) = true)
    (hid : ∀ c ∈ messageId, jsonSafe c) (htime : ∀ c ∈ timestamp, jsonSafe c) :
    decodeJson (commandTextOf messageId timestamp) =
      some (Json.obj
        [(cstr "messageId", Json.str messageId), (cstr "timestamp", Json.str timestamp),
          (cstr "command", Json.str (cstr "request_diagnostic_data")),
          (cstr "description", Json.str (cstr "診断データの要求")),
          (cstr "parameters", Json.obj [(cstr "include_logs", Json.bool true),
            (cstr "time_range_hours", Json.num 24 0)]),
          (cstr "sender", Json.str (cstr "management-app-c")),
          (cstr "priority", Json.str (cstr "normal"))]) := by
  unfold decodeJson
  rw [if_pos hvalid]
  exact parseJsonText_commandText messageId timestamp hid htime

theorem strftimeOut_iso_length (now : Nat) (h : now ≤ GMTIME_MAX) :
    (strftimeOut (cstr "%Y-%m-%dT%H:%M:%SZ") (gmtime now)).length < 32 := by
  have hs := strftime_iso now h
  unfold strftime at hs
  by_contra hc
  rw [if_neg hc] at hs
  exact Option.noConfusion hs

theorem messageIdOf_safe (now : Nat) (h : now < 2 ^ 63) : ∀ c ∈ messageIdOf now, jsonSafe c := by
  rw [messageIdOf_eq now h]
  intro c hc
  have hpre : ∀ x ∈ cstr "msg-", jsonSafe x := by decide
  rcases List.mem_append.mp hc with h1 | h1
  · exact hpre c h1
  · exact isDigit_jsonSafe c (decimal_isDigit now c h1)

theorem messageIdOf_validUtf8 (now : Nat) (h : now < 2 ^ 63) :
    validUtf8 (messageIdOf now) = true := by
  rw [messageIdOf_eq now h]
  exact validUtf8_append _ _ (by decide) (validUtf8_decimal now)

theorem messageIdOf_length (now : Nat) (h : now < 2 ^ 63) : (messageIdOf now).length ≤ 23 := by
  rw [messageIdOf_eq now h]
  have hl := decimal_length_le 18 now (by
    calc now < 2 ^ 63 := h
      _ ≤ 10 ^ (18 + 1) := by norm_num)
  have k : (cstr "msg-").length = 4 := rfl
  rw [List.length_append, k]
  omega

/-- C7: for every deviceId and every current time (one that gmtime converts), the
payload written by `createMedicalCommand` into its 1024-byte buffer is complete (a
larger buffer would hold the same text, which is shorter than 1024 bytes) and is a
JSON object whose "command" member is the string "request_diagnostic_data" and
whose "parameters" object has "include_logs" true and "time_range_hours" 24. -/
theorem createMedicalCommand_payload (deviceId : List Nat) (now : Nat)
    (hnow : now ≤ GMTIME_MAX) :
    ∃ timestamp payload,
      strftime 32 "%Y-%m-%dT%H:%M:%SZ" (gmtime now) = some timestamp ∧
      (∀ size, 1024 ≤ size → createMedicalCommand size deviceId now = some payload) ∧
      payload.length < 1024 ∧
      decodeJson payload = some (Json.obj
        [(cstr "messageId", Json.str (messageIdOf now)),
          (cstr "timestamp", Json.str timestamp),
          (cstr "command", Json.str (cstr "request_diagnostic_data")),
          (cstr "description", Json.str (cstr "診断データの要求")),
          (cstr "parameters", Json.obj [(cstr "include_logs", Json.bool true),
            (cstr "time_range_hours", Json.num 24 0)]),
          (cstr "sender", Json.str (cstr "management-app-c")),
          (cstr "priority", Json.str (cstr "normal"))]) := by
  have h63 : now < 2 ^ 63 := by
    unfold GMTIME_MAX at hnow
    calc now ≤ 67768036191676799 := hnow
      _ < 2 ^ 63 := by norm_num
  have hts := strftime_iso now hnow
  have hl1 := strftimeOut_iso_length now hnow
  have hl2 := messageIdOf_length now h63
  have hlen := commandTextOf_length (messageIdOf now)
    (strftimeOut (cstr "%Y-%m-%dT%H:%M:%SZ") (gmtime now))
  refine ⟨_, commandTextOf (messageIdOf now)
    (strftimeOut (cstr "%Y-%m-%dT%H:%M:%SZ") (gmtime now)), hts, ?_, by omega, ?_⟩
  · intro size hsize
    unfold createMedicalCommand
    simp only [hts, Option.map_some']
    unfold snprintf
    rw [vformat_command, List.take_of_length_le (by omega)]
  · exact decodeJson_commandText _ _
      (validUtf8_commandTextOf _ _ (messageIdOf_validUtf8 now h63)
        (strftimeOut_iso_validUtf8 _))
      (messageIdOf_safe now h63) (strftimeOut_iso_safe _)

theorem createMedicalCommand_payload_witness :
    ∃ timestamp payload,
      strftime 32 "%Y-%m-%dT%H:%M:%SZ" (gmtime 1704164645) = some timestamp ∧
      (∀ size, 1024 ≤ size →
        createMedicalCommand size (cstr "icu-device01") 1704164645 = some payload) ∧
      payload.length < 1024 ∧
      decodeJson payload = some (Json.obj
        [(cstr "messageId", Json.str (messageIdOf 1704164645)),
          (cstr "timestamp", Json.str timestamp),
          (cstr "command", Json.str (cstr "request_diagnostic_data")),
          (cstr "description", Json.str (cstr "診断データの要求")),
          (cstr "parameters", Json.obj [(cstr "include_logs", Json.bool true),
            (cstr "time_range_hours", Json.num 24 0)]),
          (cstr "sender", Json.str (cstr "management-app-c")),
          (cstr "priority", Json.str (cstr "normal"))]) :=
  createMedicalCommand_payload (cstr "icu-device01") 1704164645 (by decide)

/-! ### The status of drawn vitals -/

/-- The drawn temperature exceeds 37.5 exactly when its draw is at least 16
modulo 20. -/
theorem drawVitals_temperature_gt (r1 r2 r3 r4 r5 r6 : Nat) :
    (drawVitals r1 r2 r3 r4 r5 r6).bodyTemperature > 37.5 ↔ 16 ≤ r4 % 20 := by
  simp only [drawVitals]
  constructor
  · intro h
    have h2 : (15 : ℚ) < ((r4 % 20 : Nat) : ℚ) := by
      norm_num at h
      linarith
    have : 15 < r4 % 20 := by exact_mod_cast h2
    omega
  · intro h
    have h2 : (16 : ℚ) ≤ ((r4 % 20 : Nat) : ℚ) := by exact_mod_cast h
    norm_num
    linarith

/-- C11: for every six results of rand(), the status computed by
`generateMedicalTelemetry` is never "critical"; it is "warning" exactly when the
drawn bodyTemperature exceeds 37.5, that is when the temperature draw is at least
16 modulo 20, and "normal" for every other draw; the drawn heartRate and spo2
cross no threshold, nor does the temperature cross 38.5; and the status is the one
passed to the `snprintf` that writes the payload. -/
theorem drawn_status_warning_iff (r1 r2 r3 r4 r5 r6 : Nat) :
    patientStatus (drawVitals r1 r2 r3 r4 r5 r6).heartRate
        (drawVitals r1 r2 r3 r4 r5 r6).bodyTemperature
        (drawVitals r1 r2 r3 r4 r5 r6).spo2 ≠ "critical" ∧
    (patientStatus (drawVitals r1 r2 r3 r4 r5 r6).heartRate
        (drawVitals r1 r2 r3 r4 r5 r6).bodyTemperature
        (drawVitals r1 r2 r3 r4 r5 r6).spo2 = "warning" ↔
      (drawVitals r1 r2 r3 r4 r5 r6).bodyTemperature > 37.5) ∧
    ((drawVitals r1 r2 r3 r4 r5 r6).bodyTemperature > 37.5 ↔ 16 ≤ r4 % 20) ∧
    (patientStatus (drawVitals r1 r2 r3 r4 r5 r6).heartRate
        (drawVitals r1 r2 r3 r4 r5 r6).bodyTemperature
        (drawVitals r1 r2 r3 r4 r5 r6).spo2 = "normal" ↔ r4 % 20 < 16) ∧
    ¬ ((drawVitals r1 r2 r3 r4 r5 r6).heartRate > 100) ∧
    ¬ ((drawVitals r1 r2 r3 r4 r5 r6).spo2 < 95) ∧
    ¬ ((drawVitals r1 r2 r3 r4 r5 r6).bodyTemperature > 38.5) ∧
    (∀ (bufferSize : Nat) (deviceId : List Nat) (now : Nat),
      generateMedicalTelemetry bufferSize deviceId now r1 r2 r3 r4 r5 r6 =
        (strftime 32 "%Y-%m-%dT%H:%M:%SZ" (gmtime now)).map fun timestamp =>
          snprintf bufferSize telemetryFormat
            (telemetryArgs deviceId timestamp (drawVitals r1 r2 r3 r4 r5 r6)
              (if 16 ≤ r4 % 20 then "warning" else "normal"))) := by
  have hst := patientStatus_drawVitals r1 r2 r3 r4 r5 r6
  have htemp := drawVitals_temperature_gt r1 r2 r3 r4 r5 r6
  have h1 : r1 % 40 < 40 := Nat.mod_lt _ (by norm_num)
  have h4 : r4 % 20 < 20 := Nat.mod_lt _ (by norm_num)
  have h5 : r5 % 6 < 6 := Nat.mod_lt _ (by norm_num)
  have h4q : ((r4 % 20 : Nat) : ℚ) ≤ 19 := by
    have : r4 % 20 ≤ 19 := by omega
    exact_mod_cast this
  refine ⟨?_, ?_, htemp, ?_, ?_, ?_, ?_, ?_⟩
  · rw [hst]
    split_ifs <;> decide
  · rw [hst, htemp]
    by_cases h : 16 ≤ r4 % 20
    · simp [h]
    · simp [h]
  · rw [hst]
    by_cases h : 16 ≤ r4 % 20
    · rw [if_pos h]
      constructor
      · intro e
        exact absurd e (by decide)
      · intro e
        omega
    · rw [if_neg h]
      constructor
      · intro _
        omega
      · intro _
        rfl
  · simp only [drawVitals]
    omega
  · simp only [drawVitals]
    omega
  · simp only [drawVitals]
    norm_num
    linarith
  · intro bufferSize deviceId now
    unfold generateMedicalTelemetry
    simp only [hst]

end IotHubDemo
